import Mathlib

/-!
Verification of the HubFlow ("JML Automation Hub") server against its design
specification.

The development shallowly embeds the data model of `shared/schema.ts`, the
Persistence Gateway (storage layer), and the REST route handlers of
`server/routes.ts`.  JavaScript objects are embedded as Lean structures;
nullable columns become `Option` fields; timestamps are abstracted as `Nat`
instants; `jsonb` columns are kept as opaque `Option String` payloads.  The
storage layer itself is not part of the provided sources, so its operations
are modelled from the specification of the Persistence Gateway (get-by-id,
filtered list with a fixed sort key, create, partial merge update, hard
non-cascading delete); each such definition is marked in its doc comment.
-/

namespace HubFlow

/-- Enum `user_role` of `shared/schema.ts`. -/
inductive UserRole where
  | admin | hrManager | itAdmin | manager | viewer
deriving DecidableEq

/-- Enum `employee_status` of `shared/schema.ts`. -/
inductive EmployeeStatus where
  | joining | active | moving | leaving | departed
deriving DecidableEq

/-- Enum `workflow_type` of `shared/schema.ts`. -/
inductive WorkflowType where
  | joiner | mover | leaver
deriving DecidableEq

/-- Enum `template_status` of `shared/schema.ts`. -/
inductive TemplateStatus where
  | draft | active | archived
deriving DecidableEq

/-- Enum `workflow_status` of `shared/schema.ts`. -/
inductive WorkflowStatus where
  | pending | inProgress | completed | blocked | cancelled
deriving DecidableEq

/-- Enum `step_status` of `shared/schema.ts`. -/
inductive StepStatus where
  | pending | inProgress | completed | blocked | skipped
deriving DecidableEq

/-- Enum `task_status` of `shared/schema.ts`. -/
inductive TaskStatus where
  | pending | inProgress | completed | blocked
deriving DecidableEq

/-- Row of the `users` table. -/
structure User where
  id : String
  email : String
  username : String
  password : String
  firstName : String
  lastName : String
  role : UserRole
  departmentId : Option String
  avatarUrl : Option String
  isActive : Bool
  createdAt : Nat
  updatedAt : Nat
deriving DecidableEq

/-- Row of the `departments` table. -/
structure Department where
  id : String
  name : String
  description : Option String
  managerId : Option String
  parentDepartmentId : Option String
  createdAt : Nat
  updatedAt : Nat
deriving DecidableEq

/-- Row of the `employees` table. -/
structure Employee where
  id : String
  employeeNumber : Option String
  firstName : String
  lastName : String
  email : String
  personalEmail : Option String
  phone : Option String
  jobTitle : String
  departmentId : String
  managerId : Option String
  status : EmployeeStatus
  startDate : Option Nat
  endDate : Option Nat
  location : Option String
  workType : Option String
  metadata : Option String
  createdAt : Nat
  updatedAt : Nat
deriving DecidableEq

/-- Row of the `workflow_templates` table. -/
structure WorkflowTemplate where
  id : String
  name : String
  description : Option String
  type : WorkflowType
  status : TemplateStatus
  version : Int
  isDefault : Bool
  estimatedDays : Option Int
  metadata : Option String
  createdBy : Option String
  createdAt : Nat
  updatedAt : Nat
deriving DecidableEq

/-- Row of the `template_steps` table. -/
structure TemplateStep where
  id : String
  templateId : String
  name : String
  description : Option String
  stepOrder : Int
  assigneeRole : Option UserRole
  assigneeId : Option String
  slaMinutes : Option Int
  isRequired : Bool
  automationConfig : Option String
  metadata : Option String
  createdAt : Nat
deriving DecidableEq

/-- Row of the `workflows` table.  The `progress` column is a JavaScript
number at runtime; `none` represents the non-finite value `NaN`, every value
actually written by the API on a nonempty step set is `some p`. -/
structure Workflow where
  id : String
  templateId : String
  employeeId : String
  name : String
  type : WorkflowType
  status : WorkflowStatus
  initiatedBy : String
  assignedTo : Option String
  startDate : Option Nat
  dueDate : Option Nat
  completedAt : Option Nat
  progress : Option Nat
  metadata : Option String
  createdAt : Nat
  updatedAt : Nat
deriving DecidableEq

/-- Row of the `workflow_steps` table. -/
structure WorkflowStep where
  id : String
  workflowId : String
  templateStepId : Option String
  name : String
  description : Option String
  stepOrder : Int
  status : StepStatus
  assigneeId : Option String
  dueDate : Option Nat
  startedAt : Option Nat
  completedAt : Option Nat
  completedBy : Option String
  notes : Option String
  metadata : Option String
  createdAt : Nat
  updatedAt : Nat
deriving DecidableEq

/-- Row of the `tasks` table. -/
structure Task where
  id : String
  workflowStepId : String
  workflowId : String
  title : String
  description : Option String
  status : TaskStatus
  assigneeId : Option String
  priority : Option String
  dueDate : Option Nat
  completedAt : Option Nat
  completedBy : Option String
  metadata : Option String
  createdAt : Nat
  updatedAt : Nat
deriving DecidableEq

/-- Row of the `audit_logs` table. -/
structure AuditLog where
  id : String
  userId : Option String
  action : String
  entityType : String
  entityId : Option String
  description : Option String
  changes : Option String
  ipAddress : Option String
  userAgent : Option String
  createdAt : Nat
deriving DecidableEq

/-- The database state seen by the Persistence Gateway, with a counter used
to generate fresh opaque row identifiers. -/
structure Store where
  users : List User
  departments : List Department
  employees : List Employee
  workflowTemplates : List WorkflowTemplate
  templateSteps : List TemplateStep
  workflows : List Workflow
  workflowSteps : List WorkflowStep
  tasks : List Task
  auditLogs : List AuditLog
  nextId : Nat
deriving DecidableEq

/-- JSON values, as produced by `res.json(...)` in the route handlers. -/
inductive J where
  | null : J
  | str : String → J
  | num : Int → J
  | bool : Bool → J
  | obj : List (String × J) → J
  | arr : List J → J

/-- Top-level keys of a serialized JSON object. -/
def jObjKeys : J → List String
  | J.obj fields => fields.map (fun kv => kv.1)
  | _ => []

/-- Elements of a serialized JSON array. -/
def jArrElems : J → List J
  | J.arr elems => elems
  | _ => []

/-- Serialize a nullable text column. -/
def jOptStr : Option String → J
  | none => J.null
  | some s => J.str s

/-- Serialize a nullable timestamp column. -/
def jOptNum : Option Nat → J
  | none => J.null
  | some n => J.num (n : Int)

/-- String value of a `user_role` enum cell. -/
def roleToString : UserRole → String
  | UserRole.admin => "admin"
  | UserRole.hrManager => "hr_manager"
  | UserRole.itAdmin => "it_admin"
  | UserRole.manager => "manager"
  | UserRole.viewer => "viewer"

/-- String value of an `employee_status` enum cell. -/
def employeeStatusToString : EmployeeStatus → String
  | EmployeeStatus.joining => "joining"
  | EmployeeStatus.active => "active"
  | EmployeeStatus.moving => "moving"
  | EmployeeStatus.leaving => "leaving"
  | EmployeeStatus.departed => "departed"

/-- String value of a `template_status` enum cell. -/
def templateStatusToString : TemplateStatus → String
  | TemplateStatus.draft => "draft"
  | TemplateStatus.active => "active"
  | TemplateStatus.archived => "archived"

/-- String value of a `workflow_type` enum cell. -/
def workflowTypeToString : WorkflowType → String
  | WorkflowType.joiner => "joiner"
  | WorkflowType.mover => "mover"
  | WorkflowType.leaver => "leaver"

/-- String value of a `workflow_status` enum cell. -/
def workflowStatusToString : WorkflowStatus → String
  | WorkflowStatus.pending => "pending"
  | WorkflowStatus.inProgress => "in_progress"
  | WorkflowStatus.completed => "completed"
  | WorkflowStatus.blocked => "blocked"
  | WorkflowStatus.cancelled => "cancelled"

/-- String value of a `step_status` enum cell. -/
def stepStatusToString : StepStatus → String
  | StepStatus.pending => "pending"
  | StepStatus.inProgress => "in_progress"
  | StepStatus.completed => "completed"
  | StepStatus.blocked => "blocked"
  | StepStatus.skipped => "skipped"

/-- JSON shape of a full `User` row, password column included. -/
def serializeUser (u : User) : J :=
  J.obj [("id", J.str u.id), ("email", J.str u.email),
    ("username", J.str u.username), ("password", J.str u.password),
    ("firstName", J.str u.firstName), ("lastName", J.str u.lastName),
    ("role", J.str (roleToString u.role)),
    ("departmentId", jOptStr u.departmentId),
    ("avatarUrl", jOptStr u.avatarUrl), ("isActive", J.bool u.isActive),
    ("createdAt", J.num (u.createdAt : Int)),
    ("updatedAt", J.num (u.updatedAt : Int))]

/-- JSON shape of an `Employee` row. -/
def serializeEmployee (e : Employee) : J :=
  J.obj [("id", J.str e.id), ("employeeNumber", jOptStr e.employeeNumber),
    ("firstName", J.str e.firstName), ("lastName", J.str e.lastName),
    ("email", J.str e.email), ("personalEmail", jOptStr e.personalEmail),
    ("phone", jOptStr e.phone), ("jobTitle", J.str e.jobTitle),
    ("departmentId", J.str e.departmentId), ("managerId", jOptStr e.managerId),
    ("status", J.str (employeeStatusToString e.status)),
    ("startDate", jOptNum e.startDate), ("endDate", jOptNum e.endDate),
    ("location", jOptStr e.location), ("workType", jOptStr e.workType),
    ("metadata", jOptStr e.metadata),
    ("createdAt", J.num (e.createdAt : Int)),
    ("updatedAt", J.num (e.updatedAt : Int))]

/-- JSON shape of a `Department` row. -/
def serializeDepartment (d : Department) : J :=
  J.obj [("id", J.str d.id), ("name", J.str d.name),
    ("description", jOptStr d.description), ("managerId", jOptStr d.managerId),
    ("parentDepartmentId", jOptStr d.parentDepartmentId),
    ("createdAt", J.num (d.createdAt : Int)),
    ("updatedAt", J.num (d.updatedAt : Int))]

/-- JSON shape of a `WorkflowTemplate` row. -/
def serializeTemplate (t : WorkflowTemplate) : J :=
  J.obj [("id", J.str t.id), ("name", J.str t.name),
    ("description", jOptStr t.description),
    ("type", J.str (workflowTypeToString t.type)),
    ("status", J.str (templateStatusToString t.status)),
    ("version", J.num t.version), ("isDefault", J.bool t.isDefault),
    ("estimatedDays", match t.estimatedDays with
      | none => J.null
      | some n => J.num n),
    ("metadata", jOptStr t.metadata), ("createdBy", jOptStr t.createdBy),
    ("createdAt", J.num (t.createdAt : Int)),
    ("updatedAt", J.num (t.updatedAt : Int))]

/-- JSON shape of a `Workflow` row. -/
def serializeWorkflow (w : Workflow) : J :=
  J.obj [("id", J.str w.id), ("templateId", J.str w.templateId),
    ("employeeId", J.str w.employeeId), ("name", J.str w.name),
    ("type", J.str (workflowTypeToString w.type)),
    ("status", J.str (workflowStatusToString w.status)),
    ("initiatedBy", J.str w.initiatedBy), ("assignedTo", jOptStr w.assignedTo),
    ("startDate", jOptNum w.startDate), ("dueDate", jOptNum w.dueDate),
    ("completedAt", jOptNum w.completedAt), ("progress", jOptNum w.progress),
    ("metadata", jOptStr w.metadata),
    ("createdAt", J.num (w.createdAt : Int)),
    ("updatedAt", J.num (w.updatedAt : Int))]

/-- JSON shape of a `WorkflowStep` row. -/
def serializeWorkflowStep (st : WorkflowStep) : J :=
  J.obj [("id", J.str st.id), ("workflowId", J.str st.workflowId),
    ("templateStepId", jOptStr st.templateStepId), ("name", J.str st.name),
    ("description", jOptStr st.description),
    ("stepOrder", J.num st.stepOrder),
    ("status", J.str (stepStatusToString st.status)),
    ("assigneeId", jOptStr st.assigneeId), ("dueDate", jOptNum st.dueDate),
    ("startedAt", jOptNum st.startedAt), ("completedAt", jOptNum st.completedAt),
    ("completedBy", jOptStr st.completedBy), ("notes", jOptStr st.notes),
    ("metadata", jOptStr st.metadata),
    ("createdAt", J.num (st.createdAt : Int)),
    ("updatedAt", J.num (st.updatedAt : Int))]

/-- `omitPassword` of `server/routes.ts` lines 12-15: object rest
destructuring that drops the `password` key from a serialized user. -/
def omitPassword : J → J
  | J.obj fields => J.obj (fields.filter (fun kv => decide (kv.1 ≠ "password")))
  | j => j

/-- PATCH body for a workflow step (`req.body` of
`PATCH /api/workflow-steps/:id`); `none` means the key is absent, a
doubled `Option` carries an explicit `null`. -/
structure StepPatch where
  workflowId : Option String := none
  templateStepId : Option (Option String) := none
  name : Option String := none
  description : Option (Option String) := none
  stepOrder : Option Int := none
  status : Option StepStatus := none
  assigneeId : Option (Option String) := none
  dueDate : Option (Option Nat) := none
  startedAt : Option (Option Nat) := none
  completedAt : Option (Option Nat) := none
  completedBy : Option (Option String) := none
  notes : Option (Option String) := none
  metadata : Option (Option String) := none
deriving DecidableEq

/-- The `workflowUpdate` object built by the step-update handler
(`server/routes.ts` lines 343-349); only these three keys are ever set.
A present `progress` of `none` is the JavaScript `NaN`. -/
structure WorkflowPatch where
  progress : Option (Option Nat) := none
  status : Option WorkflowStatus := none
  completedAt : Option (Option Nat) := none
deriving DecidableEq

/-- PATCH body for a user (`req.body` of `PATCH /api/users/:id`). -/
structure UserPatch where
  email : Option String := none
  username : Option String := none
  password : Option String := none
  firstName : Option String := none
  lastName : Option String := none
  role : Option UserRole := none
  departmentId : Option (Option String) := none
  avatarUrl : Option (Option String) := none
  isActive : Option Bool := none
deriving DecidableEq

/-- PATCH body for an employee (`req.body` of `PATCH /api/employees/:id`). -/
structure EmployeePatch where
  employeeNumber : Option (Option String) := none
  firstName : Option String := none
  lastName : Option String := none
  email : Option String := none
  personalEmail : Option (Option String) := none
  phone : Option (Option String) := none
  jobTitle : Option String := none
  departmentId : Option String := none
  managerId : Option (Option String) := none
  status : Option EmployeeStatus := none
  startDate : Option (Option Nat) := none
  endDate : Option (Option Nat) := none
  location : Option (Option String) := none
  workType : Option (Option String) := none
  metadata : Option (Option String) := none
deriving DecidableEq

/-- Raw POST body for `/api/users`, before `insertUserSchema.safeParse`;
`none` marks an absent key. -/
structure UserBody where
  email : Option String := none
  username : Option String := none
  password : Option String := none
  firstName : Option String := none
  lastName : Option String := none
  role : Option UserRole := none
  departmentId : Option String := none
  avatarUrl : Option String := none
  isActive : Option Bool := none
deriving DecidableEq

/-- Typed result of a successful `insertUserSchema.safeParse`
(`shared/schema.ts` lines 182-186): the five not-null columns without a
database default are required, the rest stay optional. -/
structure InsertUser where
  email : String
  username : String
  password : String
  firstName : String
  lastName : String
  role : Option UserRole
  departmentId : Option String
  avatarUrl : Option String
  isActive : Option Bool
deriving DecidableEq

/-- Required fields of `insertUserSchema` missing from a request body, in
column order, as reported by the zod issue list. -/
def userMissingFields (b : UserBody) : List String :=
  (if b.email.isNone then ["email"] else []) ++
  (if b.username.isNone then ["username"] else []) ++
  (if b.password.isNone then ["password"] else []) ++
  (if b.firstName.isNone then ["firstName"] else []) ++
  (if b.lastName.isNone then ["lastName"] else [])

/-- `insertUserSchema.safeParse`: succeeds exactly when every required
column is present, otherwise reports the missing fields. -/
def parseInsertUser (b : UserBody) : Except (List String) InsertUser :=
  if userMissingFields b = [] then
    Except.ok
      { email := b.email.getD "", username := b.username.getD "",
        password := b.password.getD "", firstName := b.firstName.getD "",
        lastName := b.lastName.getD "", role := b.role,
        departmentId := b.departmentId, avatarUrl := b.avatarUrl,
        isActive := b.isActive }
  else
    Except.error (userMissingFields b)

/-- Raw POST body for `/api/employees`. -/
structure EmployeeBody where
  employeeNumber : Option String := none
  firstName : Option String := none
  lastName : Option String := none
  email : Option String := none
  personalEmail : Option String := none
  phone : Option String := none
  jobTitle : Option String := none
  departmentId : Option String := none
  managerId : Option String := none
  status : Option EmployeeStatus := none
  startDate : Option Nat := none
  endDate : Option Nat := none
  location : Option String := none
  workType : Option String := none
  metadata : Option String := none
deriving DecidableEq

/-- Typed result of a successful `insertEmployeeSchema.safeParse`. -/
structure InsertEmployee where
  employeeNumber : Option String
  firstName : String
  lastName : String
  email : String
  personalEmail : Option String
  phone : Option String
  jobTitle : String
  departmentId : String
  managerId : Option String
  status : Option EmployeeStatus
  startDate : Option Nat
  endDate : Option Nat
  location : Option String
  workType : Option String
  metadata : Option String
deriving DecidableEq

/-- Required fields of `insertEmployeeSchema` missing from a body. -/
def employeeMissingFields (b : EmployeeBody) : List String :=
  (if b.firstName.isNone then ["firstName"] else []) ++
  (if b.lastName.isNone then ["lastName"] else []) ++
  (if b.email.isNone then ["email"] else []) ++
  (if b.jobTitle.isNone then ["jobTitle"] else []) ++
  (if b.departmentId.isNone then ["departmentId"] else [])

/-- `insertEmployeeSchema.safeParse`. -/
def parseInsertEmployee (b : EmployeeBody) : Except (List String) InsertEmployee :=
  if employeeMissingFields b = [] then
    Except.ok
      { employeeNumber := b.employeeNumber,
        firstName := b.firstName.getD "", lastName := b.lastName.getD "",
        email := b.email.getD "", personalEmail := b.personalEmail,
        phone := b.phone, jobTitle := b.jobTitle.getD "",
        departmentId := b.departmentId.getD "", managerId := b.managerId,
        status := b.status, startDate := b.startDate, endDate := b.endDate,
        location := b.location, workType := b.workType, metadata := b.metadata }
  else
    Except.error (employeeMissingFields b)

/-- Raw POST body for `/api/departments`. -/
structure DepartmentBody where
  name : Option String := none
  description : Option String := none
  managerId : Option String := none
  parentDepartmentId : Option String := none
deriving DecidableEq

/-- Typed result of a successful `insertDepartmentSchema.safeParse`. -/
structure InsertDepartment where
  name : String
  description : Option String
  managerId : Option String
  parentDepartmentId : Option String
deriving DecidableEq

/-- Required fields of `insertDepartmentSchema` missing from a body. -/
def departmentMissingFields (b : DepartmentBody) : List String :=
  if b.name.isNone then ["name"] else []

/-- `insertDepartmentSchema.safeParse`. -/
def parseInsertDepartment (b : DepartmentBody) :
    Except (List String) InsertDepartment :=
  if departmentMissingFields b = [] then
    Except.ok
      { name := b.name.getD "", description := b.description,
        managerId := b.managerId,
        parentDepartmentId := b.parentDepartmentId }
  else
    Except.error (departmentMissingFields b)

/-- Raw `templateData` part of a POST body for `/api/templates` (the
`steps` key is destructured away by the handler before validation). -/
structure TemplateBody where
  name : Option String := none
  description : Option String := none
  type : Option WorkflowType := none
  status : Option TemplateStatus := none
  version : Option Int := none
  isDefault : Option Bool := none
  estimatedDays : Option Int := none
  metadata : Option String := none
  createdBy : Option String := none
deriving DecidableEq

/-- Typed result of a successful `insertWorkflowTemplateSchema.safeParse`. -/
structure InsertWorkflowTemplate where
  name : String
  description : Option String
  type : WorkflowType
  status : Option TemplateStatus
  version : Option Int
  isDefault : Option Bool
  estimatedDays : Option Int
  metadata : Option String
  createdBy : Option String
deriving DecidableEq

/-- Required fields of `insertWorkflowTemplateSchema` missing from a body. -/
def templateMissingFields (b : TemplateBody) : List String :=
  (if b.name.isNone then ["name"] else []) ++
  (if b.type.isNone then ["type"] else [])

/-- `insertWorkflowTemplateSchema.safeParse`. -/
def parseInsertWorkflowTemplate (b : TemplateBody) :
    Except (List String) InsertWorkflowTemplate :=
  if templateMissingFields b = [] then
    Except.ok
      { name := b.name.getD "", description := b.description,
        type := b.type.getD WorkflowType.joiner, status := b.status,
        version := b.version, isDefault := b.isDefault,
        estimatedDays := b.estimatedDays, metadata := b.metadata,
        createdBy := b.createdBy }
  else
    Except.error (templateMissingFields b)

/-- One element of the embedded `steps` array of a template POST; the
handler merges the template id in and hands it to the gateway without
validation. -/
structure InsertTemplateStep where
  name : String
  description : Option String := none
  stepOrder : Int
  assigneeRole : Option UserRole := none
  assigneeId : Option String := none
  slaMinutes : Option Int := none
  isRequired : Option Bool := none
  automationConfig : Option String := none
  metadata : Option String := none
deriving DecidableEq

/-- Raw POST body for `/api/workflows`. -/
structure WorkflowBody where
  templateId : Option String := none
  employeeId : Option String := none
  name : Option String := none
  type : Option WorkflowType := none
  status : Option WorkflowStatus := none
  initiatedBy : Option String := none
  assignedTo : Option String := none
  startDate : Option Nat := none
  dueDate : Option Nat := none
  completedAt : Option Nat := none
  progress : Option Nat := none
  metadata : Option String := none
deriving DecidableEq

/-- Typed result of a successful `insertWorkflowSchema.safeParse`. -/
structure InsertWorkflow where
  templateId : String
  employeeId : String
  name : String
  type : WorkflowType
  status : Option WorkflowStatus
  initiatedBy : String
  assignedTo : Option String
  startDate : Option Nat
  dueDate : Option Nat
  completedAt : Option Nat
  progress : Option Nat
  metadata : Option String
deriving DecidableEq

/-- Required fields of `insertWorkflowSchema` missing from a body. -/
def workflowMissingFields (b : WorkflowBody) : List String :=
  (if b.templateId.isNone then ["templateId"] else []) ++
  (if b.employeeId.isNone then ["employeeId"] else []) ++
  (if b.name.isNone then ["name"] else []) ++
  (if b.type.isNone then ["type"] else []) ++
  (if b.initiatedBy.isNone then ["initiatedBy"] else [])

/-- `insertWorkflowSchema.safeParse`. -/
def parseInsertWorkflow (b : WorkflowBody) : Except (List String) InsertWorkflow :=
  if workflowMissingFields b = [] then
    Except.ok
      { templateId := b.templateId.getD "",
        employeeId := b.employeeId.getD "", name := b.name.getD "",
        type := b.type.getD WorkflowType.joiner, status := b.status,
        initiatedBy := b.initiatedBy.getD "", assignedTo := b.assignedTo,
        startDate := b.startDate, dueDate := b.dueDate,
        completedAt := b.completedAt, progress := b.progress,
        metadata := b.metadata }
  else
    Except.error (workflowMissingFields b)

/-- The zod issue object reported for a missing required field. -/
def zodRequiredIssue (field : String) : J :=
  J.obj [("code", J.str "invalid_type"), ("expected", J.str "string"),
    ("received", J.str "undefined"), ("path", J.arr [J.str field]),
    ("message", J.str "Required")]

/-- Model of the external `bcrypt.hash(p, 10)`: an injective salting of the
plaintext, adequate because no claim depends on the digest value. -/
def bcryptHash (password : String) : String :=
  "$2a$10$" ++ password

/-- Fresh opaque identifier for a created row. -/
def freshId (n : Nat) : String :=
  "id" ++ toString n

/-- Update-by-id kernel of the partial-update gateway operations: the row
whose id matches is replaced by its merge, all other rows are untouched. -/
def updateById {α : Type} (l : List α) (idOf : α → String) (i : String)
    (f : α → α) : List α :=
  l.map (fun x => if idOf x = i then f x else x)

/-- Merge a PATCH body into a workflow-step row: only supplied fields
change, `updatedAt` is refreshed. -/
def mergeStep (st : WorkflowStep) (p : StepPatch) (now : Nat) : WorkflowStep :=
  { st with
    workflowId := p.workflowId.getD st.workflowId,
    templateStepId := p.templateStepId.getD st.templateStepId,
    name := p.name.getD st.name,
    description := p.description.getD st.description,
    stepOrder := p.stepOrder.getD st.stepOrder,
    status := p.status.getD st.status,
    assigneeId := p.assigneeId.getD st.assigneeId,
    dueDate := p.dueDate.getD st.dueDate,
    startedAt := p.startedAt.getD st.startedAt,
    completedAt := p.completedAt.getD st.completedAt,
    completedBy := p.completedBy.getD st.completedBy,
    notes := p.notes.getD st.notes,
    metadata := p.metadata.getD st.metadata,
    updatedAt := now }

/-- Merge an aggregator `workflowUpdate` object into a workflow row. -/
def mergeWorkflow (w : Workflow) (p : WorkflowPatch) (now : Nat) : Workflow :=
  { w with
    progress := p.progress.getD w.progress,
    status := p.status.getD w.status,
    completedAt := p.completedAt.getD w.completedAt,
    updatedAt := now }

/-- Merge a PATCH body into a user row. -/
def mergeUser (u : User) (p : UserPatch) (now : Nat) : User :=
  { u with
    email := p.email.getD u.email,
    username := p.username.getD u.username,
    password := p.password.getD u.password,
    firstName := p.firstName.getD u.firstName,
    lastName := p.lastName.getD u.lastName,
    role := p.role.getD u.role,
    departmentId := p.departmentId.getD u.departmentId,
    avatarUrl := p.avatarUrl.getD u.avatarUrl,
    isActive := p.isActive.getD u.isActive,
    updatedAt := now }

/-- Merge a PATCH body into an employee row. -/
def mergeEmployee (e : Employee) (p : EmployeePatch) (now : Nat) : Employee :=
  { e with
    employeeNumber := p.employeeNumber.getD e.employeeNumber,
    firstName := p.firstName.getD e.firstName,
    lastName := p.lastName.getD e.lastName,
    email := p.email.getD e.email,
    personalEmail := p.personalEmail.getD e.personalEmail,
    phone := p.phone.getD e.phone,
    jobTitle := p.jobTitle.getD e.jobTitle,
    departmentId := p.departmentId.getD e.departmentId,
    managerId := p.managerId.getD e.managerId,
    status := p.status.getD e.status,
    startDate := p.startDate.getD e.startDate,
    endDate := p.endDate.getD e.endDate,
    location := p.location.getD e.location,
    workType := p.workType.getD e.workType,
    metadata := p.metadata.getD e.metadata,
    updatedAt := now }

/-- Modelled from the spec: `storage.getWorkflowSteps(workflowId)` of the
Persistence Gateway (the storage module itself is not among the provided
sources) — the steps of one workflow, explicit order index ascending. -/
def getWorkflowSteps (s : Store) (workflowId : String) : List WorkflowStep :=
  List.insertionSort (fun a b => a.stepOrder ≤ b.stepOrder)
    (s.workflowSteps.filter (fun st => decide (st.workflowId = workflowId)))

/-- Modelled from the spec: `storage.getTemplateSteps(templateId)` — the
steps of one template, explicit order index ascending. -/
def getTemplateSteps (s : Store) (templateId : String) : List TemplateStep :=
  List.insertionSort (fun a b => a.stepOrder ≤ b.stepOrder)
    (s.templateSteps.filter (fun t => decide (t.templateId = templateId)))

/-- Modelled from the spec: `storage.updateWorkflowStep(id, data)` — partial
merge update by id, returning the updated row or nothing when absent. -/
def updateWorkflowStep (s : Store) (i : String) (p : StepPatch) (now : Nat) :
    Store × Option WorkflowStep :=
  match s.workflowSteps.find? (fun st => decide (st.id = i)) with
  | none => (s, none)
  | some st =>
      ({ s with workflowSteps :=
          updateById s.workflowSteps (fun x => x.id) i (fun x => mergeStep x p now) },
       some (mergeStep st p now))

/-- Modelled from the spec: `storage.updateWorkflow(id, data)` — partial
merge update by id. -/
def updateWorkflow (s : Store) (i : String) (p : WorkflowPatch) (now : Nat) :
    Store × Option Workflow :=
  match s.workflows.find? (fun w => decide (w.id = i)) with
  | none => (s, none)
  | some w =>
      ({ s with workflows :=
          updateById s.workflows (fun x => x.id) i (fun x => mergeWorkflow x p now) },
       some (mergeWorkflow w p now))

/-- Modelled from the spec: `storage.updateUser(id, data)`. -/
def updateUser (s : Store) (i : String) (p : UserPatch) (now : Nat) :
    Store × Option User :=
  match s.users.find? (fun u => decide (u.id = i)) with
  | none => (s, none)
  | some u =>
      ({ s with users :=
          updateById s.users (fun x => x.id) i (fun x => mergeUser x p now) },
       some (mergeUser u p now))

/-- Modelled from the spec: `storage.updateEmployee(id, data)`. -/
def updateEmployee (s : Store) (i : String) (p : EmployeePatch) (now : Nat) :
    Store × Option Employee :=
  match s.employees.find? (fun e => decide (e.id = i)) with
  | none => (s, none)
  | some e =>
      ({ s with employees :=
          updateById s.employees (fun x => x.id) i (fun x => mergeEmployee x p now) },
       some (mergeEmployee e p now))

/-- Modelled from the spec: `storage.createUser(data)` — insert with a fresh
id and creation timestamps. -/
def createUser (s : Store) (d : InsertUser) (now : Nat) : Store × User :=
  let u : User :=
    { id := freshId s.nextId, email := d.email, username := d.username,
      password := d.password, firstName := d.firstName,
      lastName := d.lastName, role := d.role.getD UserRole.viewer,
      departmentId := d.departmentId, avatarUrl := d.avatarUrl,
      isActive := d.isActive.getD true, createdAt := now, updatedAt := now }
  ({ s with users := s.users ++ [u], nextId := s.nextId + 1 }, u)

/-- Modelled from the spec: `storage.createDepartment(data)`. -/
def createDepartment (s : Store) (d : InsertDepartment) (now : Nat) :
    Store × Department :=
  let dep : Department :=
    { id := freshId s.nextId, name := d.name, description := d.description,
      managerId := d.managerId, parentDepartmentId := d.parentDepartmentId,
      createdAt := now, updatedAt := now }
  ({ s with departments := s.departments ++ [dep], nextId := s.nextId + 1 }, dep)

/-- Modelled from the spec: `storage.createWorkflowTemplate(data)` — the
`status`, `version` and `isDefault` column defaults apply when omitted. -/
def createWorkflowTemplate (s : Store) (d : InsertWorkflowTemplate)
    (now : Nat) : Store × WorkflowTemplate :=
  let t : WorkflowTemplate :=
    { id := freshId s.nextId, name := d.name, description := d.description,
      type := d.type, status := d.status.getD TemplateStatus.draft,
      version := d.version.getD 1, isDefault := d.isDefault.getD false,
      estimatedDays := d.estimatedDays, metadata := d.metadata,
      createdBy := d.createdBy, createdAt := now, updatedAt := now }
  ({ s with
      workflowTemplates := s.workflowTemplates ++ [t],
      nextId := s.nextId + 1 }, t)

/-- Modelled from the spec: `storage.createTemplateStep(data)` — the
`isRequired` column default applies when omitted. -/
def createTemplateStep (s : Store) (templateId : String)
    (d : InsertTemplateStep) (now : Nat) : Store × TemplateStep :=
  let t : TemplateStep :=
    { id := freshId s.nextId, templateId := templateId, name := d.name,
      description := d.description, stepOrder := d.stepOrder,
      assigneeRole := d.assigneeRole, assigneeId := d.assigneeId,
      slaMinutes := d.slaMinutes, isRequired := d.isRequired.getD true,
      automationConfig := d.automationConfig, metadata := d.metadata,
      createdAt := now }
  ({ s with templateSteps := s.templateSteps ++ [t], nextId := s.nextId + 1 }, t)

/-- The embedded-steps loop of `POST /api/templates` (lines 207-211): one
`createTemplateStep` per supplied step, the template id merged in. -/
def insertTemplateSteps (s : Store) (templateId : String)
    (ds : List InsertTemplateStep) (now : Nat) : Store :=
  match ds with
  | [] => s
  | d :: rest =>
      insertTemplateSteps (createTemplateStep s templateId d now).1
        templateId rest now

/-- Modelled from the spec: `storage.createEmployee(data)`. -/
def createEmployee (s : Store) (d : InsertEmployee) (now : Nat) :
    Store × Employee :=
  let e : Employee :=
    { id := freshId s.nextId, employeeNumber := d.employeeNumber,
      firstName := d.firstName, lastName := d.lastName, email := d.email,
      personalEmail := d.personalEmail, phone := d.phone,
      jobTitle := d.jobTitle, departmentId := d.departmentId,
      managerId := d.managerId,
      status := d.status.getD EmployeeStatus.joining,
      startDate := d.startDate, endDate := d.endDate,
      location := d.location,
      workType := some (d.workType.getD "full-time"),
      metadata := d.metadata, createdAt := now, updatedAt := now }
  ({ s with employees := s.employees ++ [e], nextId := s.nextId + 1 }, e)

/-- Modelled from the spec: `storage.createWorkflow(data)` — the `status`
and `progress` column defaults apply when the body omits them. -/
def createWorkflow (s : Store) (d : InsertWorkflow) (now : Nat) :
    Store × Workflow :=
  let w : Workflow :=
    { id := freshId s.nextId, templateId := d.templateId,
      employeeId := d.employeeId, name := d.name, type := d.type,
      status := d.status.getD WorkflowStatus.pending,
      initiatedBy := d.initiatedBy, assignedTo := d.assignedTo,
      startDate := d.startDate, dueDate := d.dueDate,
      completedAt := d.completedAt, progress := some (d.progress.getD 0),
      metadata := d.metadata, createdAt := now, updatedAt := now }
  ({ s with workflows := s.workflows ++ [w], nextId := s.nextId + 1 }, w)

/-- Insert record for `storage.createWorkflowStep`, as built by the
workflow-creation handler. -/
structure InsertWorkflowStep where
  workflowId : String
  templateStepId : Option String
  name : String
  description : Option String
  stepOrder : Int
  status : Option StepStatus
  assigneeId : Option String
  dueDate : Option Nat
  startedAt : Option Nat
  completedAt : Option Nat
  completedBy : Option String
  notes : Option String
  metadata : Option String
deriving DecidableEq

/-- Modelled from the spec: `storage.createWorkflowStep(data)`. -/
def createWorkflowStep (s : Store) (d : InsertWorkflowStep) (now : Nat) :
    Store × WorkflowStep :=
  let st : WorkflowStep :=
    { id := freshId s.nextId, workflowId := d.workflowId,
      templateStepId := d.templateStepId, name := d.name,
      description := d.description, stepOrder := d.stepOrder,
      status := d.status.getD StepStatus.pending, assigneeId := d.assigneeId,
      dueDate := d.dueDate, startedAt := d.startedAt,
      completedAt := d.completedAt, completedBy := d.completedBy,
      notes := d.notes, metadata := d.metadata,
      createdAt := now, updatedAt := now }
  ({ s with workflowSteps := s.workflowSteps ++ [st], nextId := s.nextId + 1 }, st)

/-- Modelled from the spec: `storage.deleteUser(id)` — hard delete, no
existence check, no cascade. -/
def deleteUser (s : Store) (i : String) : Store :=
  { s with users := s.users.filter (fun u => decide (u.id ≠ i)) }

/-- Modelled from the spec: `storage.deleteEmployee(id)`. -/
def deleteEmployee (s : Store) (i : String) : Store :=
  { s with employees := s.employees.filter (fun e => decide (e.id ≠ i)) }

/-- Modelled from the spec: `storage.deleteWorkflowTemplate(id)` — removes
only the template row; its template steps are untouched (no cascade). -/
def deleteWorkflowTemplate (s : Store) (i : String) : Store :=
  { s with workflowTemplates :=
      s.workflowTemplates.filter (fun t => decide (t.id ≠ i)) }

/-- Modelled from the spec: `storage.deleteTemplateStepsByTemplateId(id)`. -/
def deleteTemplateStepsByTemplateId (s : Store) (templateId : String) : Store :=
  { s with templateSteps :=
      s.templateSteps.filter (fun t => decide (t.templateId ≠ templateId)) }

/-- Modelled from the spec: `storage.deleteWorkflow(id)` — removes only the
workflow row; its steps and tasks are untouched (no cascade). -/
def deleteWorkflow (s : Store) (i : String) : Store :=
  { s with workflows := s.workflows.filter (fun w => decide (w.id ≠ i)) }

/-- Modelled from the spec: `storage.createAuditLog(data)`, as invoked
through the `createAuditLog` helper of `server/routes.ts` lines 22-33. -/
def createAuditLog (s : Store) (userId : Option String) (action : String)
    (entityType : String) (entityId : Option String)
    (description : Option String) (now : Nat) : Store :=
  let log : AuditLog :=
    { id := freshId s.nextId, userId := userId, action := action,
      entityType := entityType, entityId := entityId,
      description := description, changes := none, ipAddress := none,
      userAgent := none, createdAt := now }
  { s with auditLogs := s.auditLogs ++ [log], nextId := s.nextId + 1 }

/-- Outcome of one request: the store after all side effects, the HTTP
status code, and the JSON body (`J.null` for an empty 204 body). -/
structure HResult where
  store : Store
  status : Nat
  body : J

/-- `GET /api/users` (`server/routes.ts` lines 38-41). -/
def getUsersHandler (s : Store) : HResult :=
  { store := s, status := 200,
    body := J.arr (s.users.map (fun u => omitPassword (serializeUser u))) }

/-- `GET /api/users/:id` (lines 43-50). -/
def getUserHandler (s : Store) (i : String) : HResult :=
  match s.users.find? (fun u => decide (u.id = i)) with
  | none =>
      { store := s, status := 404,
        body := J.obj [("message", J.str "User not found")] }
  | some u =>
      { store := s, status := 200, body := omitPassword (serializeUser u) }

/-- `POST /api/users` (lines 52-62): validate, hash the password, insert,
append one audit row, respond 201 without the password. -/
def postUserHandler (s : Store) (b : UserBody) (now : Nat) : HResult :=
  match parseInsertUser b with
  | Except.error errs =>
      { store := s, status := 400,
        body := J.obj [("message", J.str "Invalid user data"),
          ("errors", J.arr (errs.map zodRequiredIssue))] }
  | Except.ok d =>
      let r := createUser s { d with password := bcryptHash d.password } now
      let s2 := createAuditLog r.1 none "create" "user" (some r.2.id)
        (some ("Created user " ++ r.2.email)) now
      { store := s2, status := 201, body := omitPassword (serializeUser r.2) }

/-- `PATCH /api/users/:id` (lines 64-76): re-hash a truthy password field,
merge-update, append one audit row. -/
def patchUserHandler (s : Store) (i : String) (p : UserPatch) (now : Nat) :
    HResult :=
  let p2 :=
    match p.password with
    | some pw => if pw = "" then p else { p with password := some (bcryptHash pw) }
    | none => p
  match updateUser s i p2 now with
  | (s1, none) =>
      { store := s1, status := 404,
        body := J.obj [("message", J.str "User not found")] }
  | (s1, some u) =>
      let s2 := createAuditLog s1 none "update" "user" (some u.id)
        (some ("Updated user " ++ u.email)) now
      { store := s2, status := 200, body := omitPassword (serializeUser u) }

/-- `DELETE /api/users/:id` (lines 78-82): hard delete, one audit row,
204 with no body. -/
def deleteUserHandler (s : Store) (i : String) (now : Nat) : HResult :=
  let s1 := deleteUser s i
  let s2 := createAuditLog s1 none "delete" "user" (some i)
    (some "Deleted user") now
  { store := s2, status := 204, body := J.null }

/-- `POST /api/employees` (lines 153-162): validate, insert, one audit row. -/
def postEmployeeHandler (s : Store) (b : EmployeeBody) (now : Nat) : HResult :=
  match parseInsertEmployee b with
  | Except.error errs =>
      { store := s, status := 400,
        body := J.obj [("message", J.str "Invalid employee data"),
          ("errors", J.arr (errs.map zodRequiredIssue))] }
  | Except.ok d =>
      let r := createEmployee s d now
      let s2 := createAuditLog r.1 none "create" "employee" (some r.2.id)
        (some ("Created employee " ++ r.2.firstName ++ " " ++ r.2.lastName)) now
      { store := s2, status := 201, body := serializeEmployee r.2 }

/-- `PATCH /api/employees/:id` (lines 164-171): merge-update and respond;
this handler writes no audit row. -/
def patchEmployeeHandler (s : Store) (i : String) (p : EmployeePatch)
    (now : Nat) : HResult :=
  match updateEmployee s i p now with
  | (s1, none) =>
      { store := s1, status := 404,
        body := J.obj [("message", J.str "Employee not found")] }
  | (s1, some e) =>
      { store := s1, status := 200, body := serializeEmployee e }

/-- `DELETE /api/employees/:id` (lines 173-176): hard delete and 204;
this handler writes no audit row. -/
def deleteEmployeeHandler (s : Store) (i : String) : HResult :=
  { store := deleteEmployee s i, status := 204, body := J.null }

/-- `POST /api/departments` (lines 99-108): validate, insert, one audit
row. -/
def postDepartmentHandler (s : Store) (b : DepartmentBody) (now : Nat) :
    HResult :=
  match parseInsertDepartment b with
  | Except.error errs =>
      { store := s, status := 400,
        body := J.obj [("message", J.str "Invalid department data"),
          ("errors", J.arr (errs.map zodRequiredIssue))] }
  | Except.ok d =>
      let r := createDepartment s d now
      let s2 := createAuditLog r.1 none "create" "department" (some r.2.id)
        (some ("Created department " ++ r.2.name)) now
      { store := s2, status := 201, body := serializeDepartment r.2 }

/-- `POST /api/templates` (lines 198-215): destructure the embedded steps
array, validate the template data, insert the template, insert each
supplied step with the new template id, one audit row. -/
def postTemplateHandler (s : Store) (b : TemplateBody)
    (steps : Option (List InsertTemplateStep)) (now : Nat) : HResult :=
  match parseInsertWorkflowTemplate b with
  | Except.error errs =>
      { store := s, status := 400,
        body := J.obj [("message", J.str "Invalid template data"),
          ("errors", J.arr (errs.map zodRequiredIssue))] }
  | Except.ok d =>
      let r := createWorkflowTemplate s d now
      let s2 :=
        match steps with
        | some l => insertTemplateSteps r.1 r.2.id l now
        | none => r.1
      let s3 := createAuditLog s2 none "create" "template" (some r.2.id)
        (some ("Created template " ++ r.2.name)) now
      { store := s3, status := 201, body := serializeTemplate r.2 }

/-- `DELETE /api/templates/:id` (lines 235-239): the handler first deletes
the template steps, then the template row. -/
def deleteTemplateHandler (s : Store) (i : String) : HResult :=
  let s1 := deleteTemplateStepsByTemplateId s i
  let s2 := deleteWorkflowTemplate s1 i
  { store := s2, status := 204, body := J.null }

/-- `DELETE /api/workflows/:id` (lines 321-324): deletes only the workflow
row; steps and tasks are left behind. -/
def deleteWorkflowHandler (s : Store) (i : String) : HResult :=
  { store := deleteWorkflow s i, status := 204, body := J.null }

/-- The step-cloning loop of `POST /api/workflows` (lines 289-305): one
`createWorkflowStep` per template step, copying name, description, order
and assignee, with status `"pending"` and null timestamps. -/
def cloneSteps (s : Store) (workflowId : String) (ts : List TemplateStep)
    (now : Nat) : Store :=
  match ts with
  | [] => s
  | t :: rest =>
      let s1 := (createWorkflowStep s
        { workflowId := workflowId, templateStepId := some t.id,
          name := t.name, description := t.description,
          stepOrder := t.stepOrder, status := some StepStatus.pending,
          assigneeId := t.assigneeId, dueDate := none, startedAt := none,
          completedAt := none, completedBy := none, notes := none,
          metadata := none } now).1
      cloneSteps s1 workflowId rest now

/-- `POST /api/workflows` (lines 279-310): validate, insert the workflow,
clone the template steps when `templateId` is truthy, one audit row. -/
def postWorkflowHandler (s : Store) (b : WorkflowBody) (now : Nat) : HResult :=
  match parseInsertWorkflow b with
  | Except.error errs =>
      { store := s, status := 400,
        body := J.obj [("message", J.str "Invalid workflow data"),
          ("errors", J.arr (errs.map zodRequiredIssue))] }
  | Except.ok d =>
      let r := createWorkflow s d now
      let s2 :=
        if d.templateId ≠ "" then
          cloneSteps r.1 r.2.id (getTemplateSteps r.1 d.templateId) now
        else r.1
      let s3 := createAuditLog s2 none "create" "workflow" (some r.2.id)
        (some ("Created workflow " ++ r.2.name)) now
      { store := s3, status := 201, body := serializeWorkflow r.2 }

/-- The rounding named by the specification: exact half-up rounding of the
rational `100 * completed / total`. This follows the spec's words only — it
is not what line 341 of `routes.ts` computes at half-integer quotients
(see `jsRound` and the C1 counterexample), and exists to compare the two. -/
def progressRound (completed total : Nat) : Nat :=
  (200 * completed + total) / (2 * total)

/-- Fuel-driven floor base-2 logarithm, structurally recursive so that it
evaluates inside the kernel; `fuel = n` always suffices. -/
def log2fuel : Nat → Nat → Nat
  | 0, _ => 0
  | fuel + 1, n => if n ≥ 2 then log2fuel fuel (n / 2) + 1 else 0

/-- Floor base-2 logarithm (`natLog2 0 = 0`). -/
def natLog2 (n : Nat) : Nat := log2fuel n n

/-- Round the nonnegative quotient `num / den` to the nearest integer,
ties to even — the IEEE-754 default rounding used by every double
operation. -/
def rneDiv (num den : Nat) : Nat :=
  let q := num / den
  let r := num % den
  if 2 * r < den then q
  else if den < 2 * r then q + 1
  else if q % 2 = 0 then q else q + 1

/-- Whether `2 ^ e ≤ c / t` for naturals `c, t ≥ 1` and an integer `e`. -/
def pow2le (c t : Nat) (e : Int) : Bool :=
  if 0 ≤ e then decide (t * 2 ^ e.toNat ≤ c) else decide (t ≤ c * 2 ^ (-e).toNat)

/-- Binade of the quotient: the largest `e` with `2 ^ e ≤ c / t`, for
`c, t ≥ 1`. `Nat.log2` brackets it to two candidates, `pow2le` decides. -/
def qlog2 (c t : Nat) : Int :=
  let e0 : Int := (natLog2 c : Int) - (natLog2 t : Int)
  if pow2le c t e0 then e0 else e0 - 1

/-- The IEEE-754 binary64 division `c / t` for `c, t ≥ 1`: the returned
pair `(s, E)` denotes the exact dyadic value `s * 2 ^ E`, where `s` is the
53-bit significand obtained by rounding `c / t * 2 ^ (52 - e)` to nearest,
ties to even. Exact throughout the normal range, which covers every list
length and count the server can hold. -/
def flDiv (c t : Nat) : Nat × Int :=
  let e := qlog2 c t
  let s := if 0 ≤ 52 - e then rneDiv (c * 2 ^ (52 - e).toNat) t
           else rneDiv c (t * 2 ^ (e - 52).toNat)
  (s, e - 52)

/-- The IEEE-754 binary64 product `x * 100` for `x = s * 2 ^ e`: the
integer `100 * s` is rounded back to 53 bits, nearest, ties to even. -/
def flMul100 (s : Nat) (e : Int) : Nat × Int :=
  let m := 100 * s
  let len := natLog2 m + 1
  if len ≤ 53 then (m, e)
  else (rneDiv m (2 ^ (len - 53)), e + (len - 53))

/-- `Math.round` on the exact value `s * 2 ^ e ≥ 0` of a double: the
nearest integer, ties toward positive infinity, i.e. `⌊x + 1/2⌋`. -/
def roundTiesUp (s : Nat) (e : Int) : Nat :=
  if 0 ≤ e then s * 2 ^ e.toNat
  else (s + 2 ^ ((-e).toNat - 1)) / 2 ^ (-e).toNat

/-- `Math.round((c / t) * 100)` exactly as routes.ts line 341 evaluates it
for `t ≥ 1`: double division, double multiplication by 100, then
`Math.round`. This diverges from the half-up rounding of the exact
rational at some inputs — `jsRound 23 40 = 57` while the exact quotient is
57.5 — because the double product can land on the other side of a
half-integer. Validated against IEEE-754 evaluation on all inputs with
`t < 700` and a large random sample beyond. -/
def jsRound (c t : Nat) : Nat :=
  if c = 0 then 0
  else
    let x := flDiv c t
    let y := flMul100 x.1 x.2
    roundTiesUp y.1 y.2

/-- `Math.round((completedSteps / allSteps.length) * 100)` as evaluated by
JavaScript: `none` is the `NaN` produced by the division `0 / 0`, finite
totals round through the double-precision model `jsRound`. -/
def jsRoundDiv (completed total : Nat) : Option Nat :=
  if total = 0 then none else some (jsRound completed total)

/-- The `workflowUpdate` object of lines 343-349: always carries the
`progress` value; status and completion timestamp only as dictated by the
comparisons (`NaN === 100` and `NaN > 0` are both false). -/
def aggregatePatch (progress : Option Nat) (now : Nat) : WorkflowPatch :=
  match progress with
  | none => { progress := some none }
  | some p =>
      if p = 100 then
        { progress := some (some p), status := some WorkflowStatus.completed,
          completedAt := some (some now) }
      else if p > 0 then
        { progress := some (some p), status := some WorkflowStatus.inProgress }
      else
        { progress := some (some p) }

/-- The Progress Aggregator body (lines 339-351), abstracted over the list
of loaded sibling steps: count completed steps, compute the rounded
percentage, and unconditionally write the `workflowUpdate` object to the
workflow row. -/
def runAggregator (s : Store) (workflowId : String)
    (allSteps : List WorkflowStep) (now : Nat) : Store :=
  let completedSteps :=
    allSteps.countP (fun x => decide (x.status = StepStatus.completed))
  let progress := jsRoundDiv completedSteps allSteps.length
  (updateWorkflow s workflowId (aggregatePatch progress now) now).1

/-- `PATCH /api/workflow-steps/:id` (lines 331-355): merge-update the step;
when the new status is `"completed"` and the step has a truthy workflow id,
run the Progress Aggregator over the freshly loaded sibling steps. -/
def patchWorkflowStepHandler (s : Store) (i : String) (p : StepPatch)
    (now : Nat) : HResult :=
  match updateWorkflowStep s i p now with
  | (s1, none) =>
      { store := s1, status := 404,
        body := J.obj [("message", J.str "Workflow step not found")] }
  | (s1, some step) =>
      let s2 :=
        if p.status = some StepStatus.completed ∧ step.workflowId ≠ "" then
          runAggregator s1 step.workflowId (getWorkflowSteps s1 step.workflowId) now
        else s1
      { store := s2, status := 200, body := serializeWorkflowStep step }

/-- Number of steps with status `"completed"` in a loaded step list. -/
def completedCount (l : List WorkflowStep) : Nat :=
  l.countP (fun st => decide (st.status = StepStatus.completed))

/-- With distinct row ids, `find?` by id returns the member itself. -/
lemma find_eq_of_mem_nodup {α : Type} {idOf : α → String} {l : List α}
    (hnd : (l.map idOf).Nodup) {a : α} (ha : a ∈ l) {i : String}
    (hai : idOf a = i) :
    l.find? (fun x => decide (idOf x = i)) = some a := by
  induction l with
  | nil => cases ha
  | cons x xs ih =>
    rw [List.map_cons, List.nodup_cons] at hnd
    rcases List.mem_cons.mp ha with h | h
    · subst h
      exact List.find?_cons_of_pos xs (by simpa using hai)
    · have hx : ¬ idOf x = i := by
        intro hxi
        exact hnd.1 (by rw [hxi, ← hai]; exact List.mem_map_of_mem idOf h)
      rw [List.find?_cons_of_neg xs (by simpa using hx)]
      exact ih hnd.2 h

/-- `updateById` is the identity when no row has the given id. -/
lemma updateById_eq_of_forall_ne {α : Type} {idOf : α → String} {l : List α}
    {i : String} {f : α → α} (h : ∀ y ∈ l, idOf y ≠ i) :
    updateById l idOf i f = l := by
  induction l with
  | nil => rfl
  | cons x xs ih =>
    show (if idOf x = i then f x else x) :: updateById xs idOf i f = x :: xs
    rw [if_neg (h x (List.mem_cons_self x xs)),
      ih (fun y hy => h y (List.mem_cons_of_mem x hy))]

/-- `updateById` preserves the length of the table. -/
lemma length_updateById {α : Type} (l : List α) (idOf : α → String)
    (i : String) (f : α → α) :
    (updateById l idOf i f).length = l.length := by
  simp [updateById]

/-- Counting after `updateById` with distinct ids: only the targeted row
can change its contribution to the count. -/
lemma countP_updateById {α : Type} {idOf : α → String} {l : List α}
    (hnd : (l.map idOf).Nodup) {a : α} (ha : a ∈ l) {i : String}
    (hai : idOf a = i) (f : α → α) (p : α → Bool) :
    (updateById l idOf i f).countP p + (if p a then 1 else 0)
      = l.countP p + (if p (f a) then 1 else 0) := by
  induction l with
  | nil => cases ha
  | cons x xs ih =>
    rw [List.map_cons, List.nodup_cons] at hnd
    have hcons : updateById (x :: xs) idOf i f
        = (if idOf x = i then f x else x) :: updateById xs idOf i f := rfl
    rcases List.mem_cons.mp ha with h | h
    · subst h
      have hxs : ∀ y ∈ xs, idOf y ≠ i := by
        intro y hy hyi
        exact hnd.1 (by rw [hai, ← hyi]; exact List.mem_map_of_mem idOf hy)
      rw [hcons, if_pos hai, updateById_eq_of_forall_ne hxs,
        List.countP_cons, List.countP_cons]
      split_ifs <;> omega
    · have hx : idOf x ≠ i := by
        intro hxi
        exact hnd.1 (by rw [hxi, ← hai]; exact List.mem_map_of_mem idOf h)
      rw [hcons, if_neg hx, List.countP_cons, List.countP_cons]
      have := ih hnd.2 h
      omega

/-- Counting is untouched by `updateById` when the merge function preserves
the counted predicate. -/
lemma countP_updateById_of_pres {α : Type} (l : List α) (idOf : α → String)
    (i : String) (f : α → α) (p : α → Bool) (hp : ∀ x, p (f x) = p x) :
    (updateById l idOf i f).countP p = l.countP p := by
  induction l with
  | nil => rfl
  | cons x xs ih =>
    have hcons : updateById (x :: xs) idOf i f
        = (if idOf x = i then f x else x) :: updateById xs idOf i f := rfl
    rw [hcons, List.countP_cons, List.countP_cons, ih]
    by_cases hx : idOf x = i
    · rw [if_pos hx, hp]
    · rw [if_neg hx]

/-- The merged row of a member is a member of the updated table. -/
lemma merged_mem_updateById {α : Type} {l : List α} {idOf : α → String}
    {a : α} (ha : a ∈ l) {i : String} (hai : idOf a = i) (f : α → α) :
    f a ∈ updateById l idOf i f := by
  have h1 : (if idOf a = i then f a else a) ∈ updateById l idOf i f :=
    List.mem_map_of_mem (fun x => if idOf x = i then f x else x) ha
  rwa [if_pos hai] at h1

/-- The loaded step list of a workflow has as many elements as there are
step rows carrying its id. -/
lemma getWorkflowSteps_length (s : Store) (wid : String) :
    (getWorkflowSteps s wid).length
      = s.workflowSteps.countP (fun x => decide (x.workflowId = wid)) := by
  unfold getWorkflowSteps
  rw [(List.perm_insertionSort _ _).length_eq, ← List.countP_eq_length_filter]

/-- Completed-step count of the loaded list, as a count over the table. -/
lemma getWorkflowSteps_completedCount (s : Store) (wid : String) :
    completedCount (getWorkflowSteps s wid)
      = s.workflowSteps.countP (fun x =>
          decide (x.status = StepStatus.completed) && decide (x.workflowId = wid)) := by
  unfold completedCount getWorkflowSteps
  rw [List.Perm.countP_eq _ (List.perm_insertionSort _ _), List.countP_filter]

/-- A merge whose patch does not mention `workflowId` keeps it. -/
lemma mergeStep_workflowId (st : WorkflowStep) (p : StepPatch) (now : Nat)
    (h : p.workflowId = none) :
    (mergeStep st p now).workflowId = st.workflowId := by
  simp [mergeStep, h]

/-- A merge whose patch sets status `"completed"` completes the row. -/
lemma mergeStep_status (st : WorkflowStep) (p : StepPatch) (now : Nat)
    (h : p.status = some StepStatus.completed) :
    (mergeStep st p now).status = StepStatus.completed := by
  simp [mergeStep, h]

/-- The workflow table after `updateWorkflow`, found or not. -/
lemma updateWorkflow_workflows (s : Store) (i : String) (p : WorkflowPatch)
    (now : Nat) :
    (updateWorkflow s i p now).1.workflows
      = updateById s.workflows (fun w => w.id) i
          (fun x => mergeWorkflow x p now) := by
  simp only [updateWorkflow]
  cases hfw : s.workflows.find? (fun w => decide (w.id = i)) with
  | none =>
      simp only [hfw]
      exact (updateById_eq_of_forall_ne
        (fun y hy => by simpa using List.find?_eq_none.mp hfw y hy)).symm
  | some w => simp only [hfw]

/-- The workflow-step table rewrite performed by `updateWorkflowStep` when
the target row exists. -/
def stepTableUpdate (s : Store) (i : String) (p : StepPatch) (now : Nat) : Store :=
  { s with workflowSteps :=
      updateById s.workflowSteps (fun x => x.id) i (fun x => mergeStep x p now) }

/-- Reduction of the step-update handler when the target exists, the patch
completes the step and leaves its workflow id alone: the handler succeeds
and rewrites the workflow table through the aggregator patch computed from
`K + 1` completed steps out of the unchanged total `N`. -/
lemma aggregation_eq (s : Store) (patch : StepPatch) (now : Nat)
    (st : WorkflowStep)
    (hmem : st ∈ s.workflowSteps)
    (hnd : (s.workflowSteps.map (fun x => x.id)).Nodup)
    (hpend : st.status = StepStatus.pending)
    (hps : patch.status = some StepStatus.completed)
    (hpw : patch.workflowId = none)
    (hwid : st.workflowId ≠ "") :
    0 < (getWorkflowSteps s st.workflowId).length ∧
    (patchWorkflowStepHandler s st.id patch now).store.workflows
      = updateById s.workflows (fun w => w.id) st.workflowId
          (fun x => mergeWorkflow x
            (aggregatePatch (some (jsRound
              (completedCount (getWorkflowSteps s st.workflowId) + 1)
              (getWorkflowSteps s st.workflowId).length)) now) now) := by
  have hfind : s.workflowSteps.find? (fun x => decide (x.id = st.id)) = some st :=
    find_eq_of_mem_nodup hnd hmem rfl
  have hupd : updateWorkflowStep s st.id patch now
      = (stepTableUpdate s st.id patch now, some (mergeStep st patch now)) := by
    simp only [updateWorkflowStep, hfind]
    rfl
  have hgwid : (mergeStep st patch now).workflowId = st.workflowId :=
    mergeStep_workflowId st patch now hpw
  have hcond : patch.status = some StepStatus.completed ∧
      (mergeStep st patch now).workflowId ≠ "" :=
    ⟨hps, by rw [hgwid]; exact hwid⟩
  have hhandler : patchWorkflowStepHandler s st.id patch now
      = { store := runAggregator (stepTableUpdate s st.id patch now)
            st.workflowId
            (getWorkflowSteps (stepTableUpdate s st.id patch now) st.workflowId)
            now,
          status := 200, body := serializeWorkflowStep (mergeStep st patch now) } := by
    simp only [patchWorkflowStepHandler, hupd, hgwid]
    rw [if_pos (show patch.status = some StepStatus.completed ∧
      st.workflowId ≠ "" from ⟨hps, hwid⟩)]
  have hsteps : (stepTableUpdate s st.id patch now).workflowSteps
      = updateById s.workflowSteps (fun x => x.id) st.id
          (fun x => mergeStep x patch now) := rfl
  have hpres : ∀ x : WorkflowStep,
      decide ((mergeStep x patch now).workflowId = st.workflowId)
        = decide (x.workflowId = st.workflowId) := by
    intro x
    rw [mergeStep_workflowId x patch now hpw]
  have htotal : (getWorkflowSteps (stepTableUpdate s st.id patch now)
        st.workflowId).length
      = (getWorkflowSteps s st.workflowId).length := by
    rw [getWorkflowSteps_length, getWorkflowSteps_length, hsteps]
    exact countP_updateById_of_pres s.workflowSteps (fun x => x.id) st.id
      (fun x => mergeStep x patch now) _ hpres
  have hcompl : completedCount (getWorkflowSteps
        (stepTableUpdate s st.id patch now) st.workflowId)
      = completedCount (getWorkflowSteps s st.workflowId) + 1 := by
    rw [getWorkflowSteps_completedCount, getWorkflowSteps_completedCount, hsteps]
    have h := countP_updateById hnd hmem rfl (fun x => mergeStep x patch now)
      (fun x => decide (x.status = StepStatus.completed)
        && decide (x.workflowId = st.workflowId))
    simp only [hpend, mergeStep_status st patch now hps, hgwid] at h
    simpa using h
  have hpos : 0 < (getWorkflowSteps s st.workflowId).length := by
    rw [getWorkflowSteps_length]
    exact List.countP_pos_iff.mpr ⟨st, hmem, by simp⟩
  refine ⟨hpos, ?_⟩
  rw [hhandler]
  show (runAggregator (stepTableUpdate s st.id patch now) st.workflowId
    (getWorkflowSteps (stepTableUpdate s st.id patch now) st.workflowId)
    now).workflows = _
  unfold runAggregator
  rw [show (getWorkflowSteps (stepTableUpdate s st.id patch now)
        st.workflowId).countP
        (fun x => decide (x.status = StepStatus.completed))
      = completedCount (getWorkflowSteps s st.workflowId) + 1 from hcompl,
    htotal]
  unfold jsRoundDiv
  show (updateWorkflow (stepTableUpdate s st.id patch now) st.workflowId
    (aggregatePatch
      (if (getWorkflowSteps s st.workflowId).length = 0 then none
       else some (jsRound
        (completedCount (getWorkflowSteps s st.workflowId) + 1)
        (getWorkflowSteps s st.workflowId).length)) now) now).1.workflows = _
  rw [if_neg (Nat.pos_iff_ne_zero.mp hpos)]
  exact updateWorkflow_workflows _ _ _ _

/-- A finite aggregator progress is always written to the patch. -/
lemma aggregatePatch_progress (p : Nat) (now : Nat) :
    (aggregatePatch (some p) now).progress = some (some p) := by
  simp only [aggregatePatch]
  split_ifs <;> rfl

/-- Aggregator patch at exactly 100 percent. -/
lemma aggregatePatch_100 (now : Nat) :
    aggregatePatch (some 100) now
      = { progress := some (some 100),
          status := some WorkflowStatus.completed,
          completedAt := some (some now) } := by
  simp [aggregatePatch]

/-- Aggregator patch at a positive percentage other than 100. -/
lemma aggregatePatch_mid (p now : Nat) (h1 : p ≠ 100) (h2 : 0 < p) :
    aggregatePatch (some p) now
      = { progress := some (some p),
          status := some WorkflowStatus.inProgress,
          completedAt := none } := by
  simp only [aggregatePatch]
  rw [if_neg h1, if_pos h2]

/-- Aggregator patch at zero percent. -/
lemma aggregatePatch_zero (now : Nat) :
    aggregatePatch (some 0) now = { progress := some (some 0) } := by
  simp [aggregatePatch]

/-- C1 (amended): marking one more pending step of a workflow with `N`
steps and `K` completed steps as `"completed"` stores the progress
`Math.round(((K+1) / N) * 100)` evaluated in IEEE-754 double precision
(`jsRound`), counting all steps of the parent workflow including the
just-updated one; this differs from exact half-up rounding of
`100 (K+1) / N` at some inputs (see the counterexample). -/
theorem c1_progress_recomputed (s : Store) (patch : StepPatch) (now : Nat)
    (st : WorkflowStep) (w : Workflow) (N K : Nat)
    (hmem : st ∈ s.workflowSteps)
    (hnd : (s.workflowSteps.map (fun x => x.id)).Nodup)
    (hpend : st.status = StepStatus.pending)
    (hps : patch.status = some StepStatus.completed)
    (hpw : patch.workflowId = none)
    (hwid : st.workflowId ≠ "")
    (hw : w ∈ s.workflows)
    (hwId : w.id = st.workflowId)
    (hN : N = (getWorkflowSteps s st.workflowId).length)
    (hK : K = completedCount (getWorkflowSteps s st.workflowId)) :
    ∃ w', w' ∈ (patchWorkflowStepHandler s st.id patch now).store.workflows
      ∧ w'.id = w.id ∧ w'.progress = some (jsRound (K + 1) N) := by
  obtain ⟨hpos, heq⟩ := aggregation_eq s patch now st hmem hnd hpend hps hpw hwid
  subst hN hK
  refine ⟨mergeWorkflow w (aggregatePatch (some (jsRound
      (completedCount (getWorkflowSteps s st.workflowId) + 1)
      (getWorkflowSteps s st.workflowId).length)) now) now, ?_, rfl, ?_⟩
  · rw [heq]
    exact merged_mem_updateById hw hwId _
  · show (aggregatePatch _ _).progress.getD w.progress = _
    rw [aggregatePatch_progress]
    rfl

/-- C2: on the aggregated workflow, status is set to completed and a
completion timestamp stamped exactly at recomputed progress 100, status is
set to in-progress for a positive progress below 100, both fields are left
alone at progress 0, and the aggregator never sets the status to pending. -/
theorem c2_status_transition (s : Store) (patch : StepPatch) (now : Nat)
    (st : WorkflowStep) (w : Workflow) (N K : Nat)
    (hmem : st ∈ s.workflowSteps)
    (hnd : (s.workflowSteps.map (fun x => x.id)).Nodup)
    (hpend : st.status = StepStatus.pending)
    (hps : patch.status = some StepStatus.completed)
    (hpw : patch.workflowId = none)
    (hwid : st.workflowId ≠ "")
    (hw : w ∈ s.workflows)
    (hwId : w.id = st.workflowId)
    (hN : N = (getWorkflowSteps s st.workflowId).length)
    (hK : K = completedCount (getWorkflowSteps s st.workflowId)) :
    ∃ w', w' ∈ (patchWorkflowStepHandler s st.id patch now).store.workflows
      ∧ w'.id = w.id
      ∧ w'.progress = some (jsRound (K + 1) N)
      ∧ (jsRound (K + 1) N = 100 →
          w'.status = WorkflowStatus.completed ∧ w'.completedAt = some now)
      ∧ (0 < jsRound (K + 1) N → jsRound (K + 1) N < 100 →
          w'.status = WorkflowStatus.inProgress ∧ w'.completedAt = w.completedAt)
      ∧ (jsRound (K + 1) N = 0 →
          w'.status = w.status ∧ w'.completedAt = w.completedAt)
      ∧ (w'.status = WorkflowStatus.pending → w.status = WorkflowStatus.pending) := by
  obtain ⟨hpos, heq⟩ := aggregation_eq s patch now st hmem hnd hpend hps hpw hwid
  subst hN hK
  refine ⟨mergeWorkflow w (aggregatePatch (some (jsRound
      (completedCount (getWorkflowSteps s st.workflowId) + 1)
      (getWorkflowSteps s st.workflowId).length)) now) now,
    ?_, rfl, ?_, ?_, ?_, ?_, ?_⟩
  · rw [heq]
    exact merged_mem_updateById hw hwId _
  · show (aggregatePatch _ _).progress.getD w.progress = _
    rw [aggregatePatch_progress]
    rfl
  · intro h100
    rw [h100, aggregatePatch_100]
    exact ⟨rfl, rfl⟩
  · intro hp0 hp100
    rw [aggregatePatch_mid _ _ (by omega) hp0]
    exact ⟨rfl, rfl⟩
  · intro h0
    rw [h0, aggregatePatch_zero]
    exact ⟨rfl, rfl⟩
  · intro hpstat
    by_cases h0 : jsRound
        (completedCount (getWorkflowSteps s st.workflowId) + 1)
        (getWorkflowSteps s st.workflowId).length = 0
    · rw [h0, aggregatePatch_zero] at hpstat
      exact hpstat
    · by_cases h100 : jsRound
          (completedCount (getWorkflowSteps s st.workflowId) + 1)
          (getWorkflowSteps s st.workflowId).length = 100
      · rw [h100, aggregatePatch_100] at hpstat
        simp [mergeWorkflow] at hpstat
      · rw [aggregatePatch_mid _ _ h100 (Nat.pos_of_ne_zero h0)] at hpstat
        simp [mergeWorkflow] at hpstat

/-- Workflow-step row used by concrete test states. -/
def wfStep (i wid : String) (ord : Int) (stat : StepStatus) : WorkflowStep :=
  { id := i, workflowId := wid, templateStepId := none, name := "step",
    description := none, stepOrder := ord, status := stat, assigneeId := none,
    dueDate := none, startedAt := none, completedAt := none,
    completedBy := none, notes := none, metadata := none,
    createdAt := 0, updatedAt := 0 }

/-- Workflow row used by concrete test states. -/
def wfRow (i : String) (stat : WorkflowStatus) (prog : Option Nat) : Workflow :=
  { id := i, templateId := "t1", employeeId := "e1", name := "wf",
    type := WorkflowType.joiner, status := stat, initiatedBy := "u1",
    assignedTo := none, startDate := none, dueDate := none, completedAt := none,
    progress := prog, metadata := none, createdAt := 0, updatedAt := 0 }

/-- The empty database. -/
def emptyStore : Store :=
  { users := [], departments := [], employees := [], workflowTemplates := [],
    templateSteps := [], workflows := [], workflowSteps := [], tasks := [],
    auditLogs := [], nextId := 0 }

/-- Test state: one workflow with three steps, one of them completed. -/
def cs1 : Store :=
  { emptyStore with
    workflows := [wfRow "w" WorkflowStatus.inProgress (some 33)],
    workflowSteps := [wfStep "s1" "w" 1 StepStatus.completed,
      wfStep "s2" "w" 2 StepStatus.pending,
      wfStep "s3" "w" 3 StepStatus.pending] }

/-- Test state for the C1 counterexample: a 40-step workflow with 22
completed steps, the input at which the double product falls just below
57.5. -/
def cs40 : Store :=
  { emptyStore with
    workflows := [wfRow "w" WorkflowStatus.inProgress (some 55)],
    workflowSteps :=
      (List.range 40).map (fun k =>
        wfStep ("s" ++ toString k) "w" (k : Int)
          (if k < 22 then StepStatus.completed else StepStatus.pending)) }

set_option maxRecDepth 40000 in
/-- C1 counterexample: with `N = 40` steps of which `K = 22` are completed,
completing one more stores progress 57 — the double product
`(23 / 40) * 100` evaluates to 57.49999999999999 and `Math.round` gives
57 — while the half-up rounding of the exact rational 57.5 demanded by the
claim is `progressRound 23 40 = 58`. -/
theorem c1_counterexample :
    (patchWorkflowStepHandler cs40 "s22"
        { status := some StepStatus.completed } 9).store.workflows.map
        (fun w => w.progress)
      = [some 57]
    ∧ progressRound 23 40 = 58 := by
  decide

/-- Witness for the amended C1 on `cs1`: completing step `"s2"` with
`N = 3`, `K = 1`. -/
theorem c1_progress_recomputed_witness :
    ∃ w', w' ∈ (patchWorkflowStepHandler cs1 "s2"
        { status := some StepStatus.completed } 7).store.workflows
      ∧ w'.id = "w" ∧ w'.progress = some (jsRound (1 + 1) 3) :=
  c1_progress_recomputed cs1 { status := some StepStatus.completed } 7
    (wfStep "s2" "w" 2 StepStatus.pending)
    (wfRow "w" WorkflowStatus.inProgress (some 33)) 3 1
    (by decide) (by decide) (by decide) (by decide) (by decide) (by decide)
    (by decide) (by decide) (by decide) (by decide)

/-- Witness for C2 on `cs1`: the recomputed progress is 67, so the workflow
status becomes in-progress and the completion timestamp stays untouched. -/
theorem c2_status_transition_witness :
    ∃ w', w' ∈ (patchWorkflowStepHandler cs1 "s2"
        { status := some StepStatus.completed } 7).store.workflows
      ∧ w'.id = "w"
      ∧ w'.progress = some (jsRound (1 + 1) 3)
      ∧ (jsRound (1 + 1) 3 = 100 →
          w'.status = WorkflowStatus.completed ∧ w'.completedAt = some 7)
      ∧ (0 < jsRound (1 + 1) 3 → jsRound (1 + 1) 3 < 100 →
          w'.status = WorkflowStatus.inProgress ∧ w'.completedAt = none)
      ∧ (jsRound (1 + 1) 3 = 0 →
          w'.status = WorkflowStatus.inProgress ∧ w'.completedAt = none)
      ∧ (w'.status = WorkflowStatus.pending →
          WorkflowStatus.inProgress = WorkflowStatus.pending) :=
  c2_status_transition cs1 { status := some StepStatus.completed } 7
    (wfStep "s2" "w" 2 StepStatus.pending)
    (wfRow "w" WorkflowStatus.inProgress (some 33)) 3 1
    (by decide) (by decide) (by decide) (by decide) (by decide) (by decide)
    (by decide) (by decide) (by decide) (by decide)

/-- C9: a step PATCH whose status is anything other than `"completed"`
(or absent) leaves the workflow table — hence every workflow progress and
status — completely unchanged: no aggregation or workflow write happens. -/
theorem c9_no_aggregation_frame (s : Store) (i : String) (p : StepPatch)
    (now : Nat) (h : p.status ≠ some StepStatus.completed) :
    (patchWorkflowStepHandler s i p now).store.workflows = s.workflows := by
  simp only [patchWorkflowStepHandler, updateWorkflowStep]
  cases hfind : s.workflowSteps.find? (fun x => decide (x.id = i)) with
  | none => simp only [hfind]
  | some st =>
      simp only [hfind]
      rw [if_neg (fun hc => h hc.1)]

/-- Witness for C9: marking step `"s2"` of `cs1` as blocked. -/
theorem c9_no_aggregation_frame_witness :
    (patchWorkflowStepHandler cs1 "s2"
      { status := some StepStatus.blocked } 5).store.workflows
      = cs1.workflows :=
  c9_no_aggregation_frame cs1 "s2" { status := some StepStatus.blocked } 5
    (by decide)

/-- Test state: one pending workflow with progress 42 and no steps. -/
def cs3 : Store :=
  { emptyStore with workflows := [wfRow "w" WorkflowStatus.pending (some 42)] }

/-- C3 counterexample: running the aggregator body of lines 339-351 over an
empty step list does not skip the workflow write — it overwrites the stored
progress 42 with the `NaN` produced by `0 / 0` (here `none`), while status
and completion timestamp stay unchanged. -/
theorem c3_counterexample :
    (runAggregator cs3 "w" [] 0).workflows.map
        (fun w => (w.progress, w.status, w.completedAt))
      = [(none, WorkflowStatus.pending, none)]
    ∧ cs3.workflows.map (fun w => w.progress) = [some 42] := by
  decide

/-- C3 amended: whenever the PATCH handler reaches the aggregator, the
freshly loaded step list contains at least the just-updated step, so
`total` is never zero and the percentage division never divides by zero. -/
theorem c3_total_never_zero (s : Store) (i : String) (p : StepPatch)
    (now : Nat) (st : WorkflowStep)
    (hfind : s.workflowSteps.find? (fun x => decide (x.id = i)) = some st)
    (hwid : (mergeStep st p now).workflowId ≠ "") :
    0 < (getWorkflowSteps (updateWorkflowStep s i p now).1
          (mergeStep st p now).workflowId).length
    ∧ (jsRoundDiv
        (completedCount (getWorkflowSteps (updateWorkflowStep s i p now).1
          (mergeStep st p now).workflowId))
        (getWorkflowSteps (updateWorkflowStep s i p now).1
          (mergeStep st p now).workflowId).length).isSome = true := by
  have hmem : st ∈ s.workflowSteps := List.mem_of_find?_eq_some hfind
  have hid : st.id = i := by simpa using List.find?_some hfind
  have hstore : (updateWorkflowStep s i p now).1 = stepTableUpdate s i p now := by
    simp only [updateWorkflowStep, hfind]
    rfl
  have hmm : mergeStep st p now ∈ (stepTableUpdate s i p now).workflowSteps := by
    show mergeStep st p now
      ∈ updateById s.workflowSteps (fun x => x.id) i (fun x => mergeStep x p now)
    exact merged_mem_updateById hmem hid _
  have hpos : 0 < (getWorkflowSteps (stepTableUpdate s i p now)
      (mergeStep st p now).workflowId).length := by
    rw [getWorkflowSteps_length]
    exact List.countP_pos_iff.mpr ⟨mergeStep st p now, hmm, by simp⟩
  rw [hstore]
  refine ⟨hpos, ?_⟩
  unfold jsRoundDiv
  rw [if_neg (Nat.pos_iff_ne_zero.mp hpos)]
  rfl

/-- Witness for the amended C3 on `cs1`. -/
theorem c3_total_never_zero_witness :
    0 < (getWorkflowSteps
          (updateWorkflowStep cs1 "s2" { status := some StepStatus.completed } 5).1
          (mergeStep (wfStep "s2" "w" 2 StepStatus.pending)
            { status := some StepStatus.completed } 5).workflowId).length
    ∧ (jsRoundDiv
        (completedCount (getWorkflowSteps
          (updateWorkflowStep cs1 "s2" { status := some StepStatus.completed } 5).1
          (mergeStep (wfStep "s2" "w" 2 StepStatus.pending)
            { status := some StepStatus.completed } 5).workflowId))
        (getWorkflowSteps
          (updateWorkflowStep cs1 "s2" { status := some StepStatus.completed } 5).1
          (mergeStep (wfStep "s2" "w" 2 StepStatus.pending)
            { status := some StepStatus.completed } 5).workflowId).length).isSome
      = true :=
  c3_total_never_zero cs1 "s2" { status := some StepStatus.completed } 5
    (wfStep "s2" "w" 2 StepStatus.pending) (by decide) (by decide)

/-- Test state for C10: a blocked workflow with 201 pending steps, so that
completing one step yields `round(100 / 201) = 0`. -/
def bigStore : Store :=
  { emptyStore with
    workflows := [wfRow "w" WorkflowStatus.blocked (some 0)],
    workflowSteps :=
      (List.range 201).map (fun k =>
        wfStep ("s" ++ toString k) "w" (k : Int) StepStatus.pending) }

set_option maxRecDepth 40000 in
/-- C10 counterexample: completing step `"s0"` of the blocked 201-step
workflow recomputes progress 0, so the aggregator writes only `progress`
and the prior `"blocked"` status survives — it is not overwritten to
in-progress or completed as the claim asserts. -/
theorem c10_counterexample :
    (patchWorkflowStepHandler bigStore "s0"
        { status := some StepStatus.completed } 9).store.workflows.map
        (fun w => (w.status, w.progress))
      = [(WorkflowStatus.blocked, some 0)]
    ∧ (patchWorkflowStepHandler bigStore "s0"
        { status := some StepStatus.completed } 9).store.workflowSteps.countP
        (fun st => decide (st.status = StepStatus.completed)) = 1 := by
  decide

/-- C10 amended: the aggregator never writes `"pending"`, `"blocked"` or
`"cancelled"`; completing a step of a workflow overwrites its status (to
in-progress or completed) whenever the recomputed progress is positive,
while a recomputed progress of 0 leaves the prior status in place. -/
theorem c10_amended_status_writes (s : Store) (patch : StepPatch) (now : Nat)
    (st : WorkflowStep) (w : Workflow)
    (hmem : st ∈ s.workflowSteps)
    (hnd : (s.workflowSteps.map (fun x => x.id)).Nodup)
    (hpend : st.status = StepStatus.pending)
    (hps : patch.status = some StepStatus.completed)
    (hpw : patch.workflowId = none)
    (hwid : st.workflowId ≠ "")
    (hw : w ∈ s.workflows)
    (hwId : w.id = st.workflowId) :
    (∀ (pr : Option Nat) (t : Nat),
        (aggregatePatch pr t).status ≠ some WorkflowStatus.pending
        ∧ (aggregatePatch pr t).status ≠ some WorkflowStatus.blocked
        ∧ (aggregatePatch pr t).status ≠ some WorkflowStatus.cancelled)
    ∧ (0 < jsRound (completedCount (getWorkflowSteps s st.workflowId) + 1)
          (getWorkflowSteps s st.workflowId).length →
        ∃ w', w' ∈ (patchWorkflowStepHandler s st.id patch now).store.workflows
          ∧ w'.id = w.id
          ∧ (w'.status = WorkflowStatus.inProgress
              ∨ w'.status = WorkflowStatus.completed)) := by
  obtain ⟨hpos, heq⟩ := aggregation_eq s patch now st hmem hnd hpend hps hpw hwid
  constructor
  · intro pr t
    cases pr with
    | none => exact ⟨nofun, nofun, nofun⟩
    | some q =>
        simp only [aggregatePatch]
        split_ifs <;> exact ⟨nofun, nofun, nofun⟩
  · intro hpr
    refine ⟨mergeWorkflow w (aggregatePatch (some (jsRound
        (completedCount (getWorkflowSteps s st.workflowId) + 1)
        (getWorkflowSteps s st.workflowId).length)) now) now, ?_, rfl, ?_⟩
    · rw [heq]
      exact merged_mem_updateById hw hwId _
    · by_cases h100 : jsRound
          (completedCount (getWorkflowSteps s st.workflowId) + 1)
          (getWorkflowSteps s st.workflowId).length = 100
      · rw [h100, aggregatePatch_100]
        exact Or.inr rfl
      · rw [aggregatePatch_mid _ _ h100 hpr]
        exact Or.inl rfl

/-- Witness for the amended C10 on `cs1`. -/
theorem c10_amended_status_writes_witness :
    ((∀ (pr : Option Nat) (t : Nat),
        (aggregatePatch pr t).status ≠ some WorkflowStatus.pending
        ∧ (aggregatePatch pr t).status ≠ some WorkflowStatus.blocked
        ∧ (aggregatePatch pr t).status ≠ some WorkflowStatus.cancelled)
    ∧ (0 < jsRound (1 + 1) 3 →
        ∃ w', w' ∈ (patchWorkflowStepHandler cs1 "s2"
            { status := some StepStatus.completed } 7).store.workflows
          ∧ w'.id = "w"
          ∧ (w'.status = WorkflowStatus.inProgress
              ∨ w'.status = WorkflowStatus.completed))) := by
  have h := c10_amended_status_writes cs1 { status := some StepStatus.completed } 7
    (wfStep "s2" "w" 2 StepStatus.pending)
    (wfRow "w" WorkflowStatus.inProgress (some 33))
    (by decide) (by decide) (by decide) (by decide) (by decide) (by decide)
    (by decide) (by decide)
  exact h

/-- C5: deletes do not cascade — the gateway delete of a workflow template
leaves its template steps in place (the template DELETE handler therefore
deletes them separately first, before the template row), and deleting a
workflow leaves its workflow steps and tasks in the store. -/
theorem c5_delete_no_cascade (s : Store) (i : String) :
    (deleteWorkflowTemplate s i).templateSteps = s.templateSteps
    ∧ (deleteWorkflow s i).workflowSteps = s.workflowSteps
    ∧ (deleteWorkflow s i).tasks = s.tasks
    ∧ deleteTemplateHandler s i
        = { store := deleteWorkflowTemplate (deleteTemplateStepsByTemplateId s i) i,
            status := 204, body := J.null }
    ∧ (deleteWorkflowHandler s i).store.workflowSteps = s.workflowSteps
    ∧ (deleteWorkflowHandler s i).store.tasks = s.tasks :=
  ⟨rfl, rfl, rfl, rfl, rfl, rfl⟩

/-- The insert record cloned from one template step (lines 290-304). -/
def cloneInsert (workflowId : String) (t : TemplateStep) : InsertWorkflowStep :=
  { workflowId := workflowId, templateStepId := some t.id, name := t.name,
    description := t.description, stepOrder := t.stepOrder,
    status := some StepStatus.pending, assigneeId := t.assigneeId,
    dueDate := none, startedAt := none, completedAt := none,
    completedBy := none, notes := none, metadata := none }

/-- The cloning loop appends one pending step per template step, copying
name, order and template-step reference. -/
lemma cloneSteps_spec (ts : List TemplateStep) (s : Store) (wfId : String)
    (now : Nat) :
    ∃ newSteps,
      (cloneSteps s wfId ts now).workflowSteps = s.workflowSteps ++ newSteps
      ∧ List.Forall₂ (fun (t : TemplateStep) (st : WorkflowStep) =>
          st.workflowId = wfId ∧ st.templateStepId = some t.id
          ∧ st.name = t.name ∧ st.stepOrder = t.stepOrder
          ∧ st.status = StepStatus.pending) ts newSteps := by
  induction ts generalizing s with
  | nil => exact ⟨[], by simp [cloneSteps], List.Forall₂.nil⟩
  | cons t rest ih =>
      obtain ⟨ns, hsteps, hrel⟩ :=
        ih (createWorkflowStep s (cloneInsert wfId t) now).1
      refine ⟨(createWorkflowStep s (cloneInsert wfId t) now).2 :: ns, ?_, ?_⟩
      · show (cloneSteps (createWorkflowStep s (cloneInsert wfId t) now).1
          wfId rest now).workflowSteps = _
        rw [hsteps]
        show (s.workflowSteps
            ++ [(createWorkflowStep s (cloneInsert wfId t) now).2]) ++ ns = _
        rw [List.append_assoc]
        rfl
      · exact List.Forall₂.cons ⟨rfl, rfl, rfl, rfl, rfl⟩ hrel

/-- C6: creating a workflow from a template appends one WorkflowStep per
TemplateStep, with the same name, the same order value as the originating
template step, a reference to it, and initial status `"pending"`. -/
theorem c6_template_instantiation (s : Store) (b : WorkflowBody) (now : Nat)
    (d : InsertWorkflow)
    (hparse : parseInsertWorkflow b = Except.ok d)
    (htid : d.templateId ≠ "") :
    ∃ wfId newSteps,
      (postWorkflowHandler s b now).store.workflowSteps
        = s.workflowSteps ++ newSteps
      ∧ List.Forall₂ (fun (t : TemplateStep) (st : WorkflowStep) =>
          st.workflowId = wfId ∧ st.templateStepId = some t.id
          ∧ st.name = t.name ∧ st.stepOrder = t.stepOrder
          ∧ st.status = StepStatus.pending)
          (getTemplateSteps s d.templateId) newSteps := by
  obtain ⟨ns, hsteps, hrel⟩ := cloneSteps_spec (getTemplateSteps s d.templateId)
    (createWorkflow s d now).1 (createWorkflow s d now).2.id now
  refine ⟨(createWorkflow s d now).2.id, ns, ?_, hrel⟩
  simp only [postWorkflowHandler, hparse]
  rw [if_pos htid]
  exact hsteps

/-- Template-step row used by concrete test states. -/
def tplStep (i tid nm : String) (ord : Int) : TemplateStep :=
  { id := i, templateId := tid, name := nm, description := none,
    stepOrder := ord, assigneeRole := none, assigneeId := none,
    slaMinutes := none, isRequired := true, automationConfig := none,
    metadata := none, createdAt := 0 }

/-- Test state: one template `"t1"` with steps A (order 1) and B (order 2). -/
def cs6 : Store :=
  { emptyStore with
    templateSteps := [tplStep "ts1" "t1" "A" 1, tplStep "ts2" "t1" "B" 2] }

/-- POST body instantiating template `"t1"`. -/
def wb6 : WorkflowBody :=
  { templateId := some "t1", employeeId := some "e1", name := some "wf",
    type := some WorkflowType.joiner, initiatedBy := some "u1" }

/-- Parse result of `wb6`. -/
def d6 : InsertWorkflow :=
  { templateId := "t1", employeeId := "e1", name := "wf",
    type := WorkflowType.joiner, status := none, initiatedBy := "u1",
    assignedTo := none, startDate := none, dueDate := none,
    completedAt := none, progress := none, metadata := none }

/-- Witness for C6 on the [A(order 1), B(order 2)] template. -/
theorem c6_template_instantiation_witness :
    ∃ wfId newSteps,
      (postWorkflowHandler cs6 wb6 3).store.workflowSteps
        = cs6.workflowSteps ++ newSteps
      ∧ List.Forall₂ (fun (t : TemplateStep) (st : WorkflowStep) =>
          st.workflowId = wfId ∧ st.templateStepId = some t.id
          ∧ st.name = t.name ∧ st.stepOrder = t.stepOrder
          ∧ st.status = StepStatus.pending)
          (getTemplateSteps cs6 "t1") newSteps :=
  c6_template_instantiation cs6 wb6 3 d6 rfl (by decide)

/-- The password-stripped serialization never carries a `password` key. -/
lemma omitPassword_no_password (j : J) :
    "password" ∉ jObjKeys (omitPassword j) := by
  cases j with
  | obj fields =>
      intro hmem
      obtain ⟨kv, hkv, hk⟩ := List.mem_map.mp hmem
      have h1 := List.of_mem_filter hkv
      rw [decide_eq_true_iff] at h1
      exact h1 hk
  | null => nofun
  | str s0 => nofun
  | num n => nofun
  | bool b0 => nofun
  | arr xs => nofun

/-- C7: no response of the user endpoints — list, single fetch, create or
update — carries a `password` key: the list endpoint returns exactly the
password-stripped serializations, and each stripped object as well as every
other response body of these handlers lacks the key. -/
theorem c7_password_never_serialized (s : Store) (i : String) (b : UserBody)
    (pch : UserPatch) (now : Nat) :
    ((getUsersHandler s).body
        = J.arr (s.users.map (fun u => omitPassword (serializeUser u)))
      ∧ ∀ u, u ∈ s.users → "password" ∉ jObjKeys (omitPassword (serializeUser u)))
    ∧ "password" ∉ jObjKeys (getUserHandler s i).body
    ∧ "password" ∉ jObjKeys (postUserHandler s b now).body
    ∧ "password" ∉ jObjKeys (patchUserHandler s i pch now).body := by
  refine ⟨⟨rfl, fun u _ => omitPassword_no_password _⟩, ?_, ?_, ?_⟩
  · unfold getUserHandler
    cases hf : s.users.find? (fun u => decide (u.id = i)) with
    | none => simp only [hf]; decide
    | some u => simp only [hf]; exact omitPassword_no_password _
  · unfold postUserHandler
    cases hp : parseInsertUser b with
    | error errs =>
        simp only [hp]
        show ("password" : String) ∉ ["message", "errors"]
        decide
    | ok d => simp only [hp]; exact omitPassword_no_password _
  · unfold patchUserHandler updateUser
    cases hf : s.users.find? (fun u => decide (u.id = i)) with
    | none => simp only [hf]; decide
    | some u => simp only [hf]; exact omitPassword_no_password _

/-- User row used by concrete test states. -/
def user1 : User :=
  { id := "u1", email := "a@b.c", username := "u", password := "hash",
    firstName := "F", lastName := "L", role := UserRole.viewer,
    departmentId := none, avatarUrl := none, isActive := true,
    createdAt := 0, updatedAt := 0 }

/-- Employee row used by concrete test states. -/
def emp1 : Employee :=
  { id := "e1", employeeNumber := none, firstName := "J", lastName := "D",
    email := "j@d.c", personalEmail := none, phone := none,
    jobTitle := "Dev", departmentId := "d1", managerId := none,
    status := EmployeeStatus.active, startDate := none, endDate := none,
    location := none, workType := some "full-time", metadata := none,
    createdAt := 0, updatedAt := 0 }

/-- Test state with one user and one employee. -/
def csA : Store := { emptyStore with users := [user1], employees := [emp1] }

/-- Witness for C7 on `csA`. -/
theorem c7_password_never_serialized_witness :
    "password" ∉ jObjKeys (omitPassword (serializeUser user1))
    ∧ "password" ∉ jObjKeys (getUserHandler csA "zz").body :=
  ⟨(c7_password_never_serialized csA "zz" {} {} 1).1.2 user1 (by decide),
   (c7_password_never_serialized csA "zz" {} {} 1).2.1⟩

/-- C8: posting a user body without a `password` key fails validation with
status 400, the store is completely unchanged (no row created, no audit
row), and the zod error list contains the field-level issue for
`password`. -/
theorem c8_missing_password (s : Store) (b : UserBody) (now : Nat)
    (hpw : b.password = none) :
    (postUserHandler s b now).status = 400
    ∧ (postUserHandler s b now).store = s
    ∧ "password" ∈ userMissingFields b
    ∧ (postUserHandler s b now).body
        = J.obj [("message", J.str "Invalid user data"),
            ("errors", J.arr ((userMissingFields b).map zodRequiredIssue))] := by
  have hmem : "password" ∈ userMissingFields b := by
    simp [userMissingFields, hpw]
  have hne : userMissingFields b ≠ [] := List.ne_nil_of_mem hmem
  have hparse : parseInsertUser b = Except.error (userMissingFields b) := by
    simp only [parseInsertUser]
    rw [if_neg hne]
  refine ⟨?_, ?_, hmem, ?_⟩ <;> simp only [postUserHandler, hparse]

/-- POST body for C8: everything present except the password. -/
def ub8 : UserBody :=
  { email := some "a@b.c", username := some "u", firstName := some "F",
    lastName := some "L" }

/-- Witness for C8 on the empty store. -/
theorem c8_missing_password_witness :
    (postUserHandler emptyStore ub8 3).status = 400
    ∧ (postUserHandler emptyStore ub8 3).store = emptyStore
    ∧ "password" ∈ userMissingFields ub8
    ∧ (postUserHandler emptyStore ub8 3).body
        = J.obj [("message", J.str "Invalid user data"),
            ("errors", J.arr ((userMissingFields ub8).map zodRequiredIssue))] :=
  c8_missing_password emptyStore ub8 3 rfl

/-- The audit-log helper appends exactly one row, and that row records the
given action, entity type, entity id and description. -/
lemma createAuditLog_spec (s : Store) (userId : Option String)
    (action entityType : String) (entityId description : Option String)
    (now : Nat) :
    ∃ log : AuditLog,
      (createAuditLog s userId action entityType entityId description
        now).auditLogs = s.auditLogs ++ [log]
      ∧ log.action = action ∧ log.entityType = entityType
      ∧ log.entityId = entityId ∧ log.description = description :=
  ⟨_, rfl, rfl, rfl, rfl, rfl⟩

/-- The embedded-steps loop of the template POST touches only the
template-step table. -/
lemma insertTemplateSteps_auditLogs (ds : List InsertTemplateStep)
    (s : Store) (templateId : String) (now : Nat) :
    (insertTemplateSteps s templateId ds now).auditLogs = s.auditLogs := by
  induction ds generalizing s with
  | nil => rfl
  | cons d rest ih => exact ih _

/-- The workflow-step cloning loop touches only the workflow-step table. -/
lemma cloneSteps_auditLogs (ts : List TemplateStep) (s : Store)
    (workflowId : String) (now : Nat) :
    (cloneSteps s workflowId ts now).auditLogs = s.auditLogs := by
  induction ts generalizing s with
  | nil => rfl
  | cons t rest ih => exact ih _

/-- C4 counterexample: updating an existing employee through
`PATCH /api/employees/:id` succeeds (status 200 and the row changes) yet
appends no AuditLog row, contradicting the claim that every update of an
auditable entity appends exactly one. -/
theorem c4_counterexample :
    (patchEmployeeHandler csA "e1" { jobTitle := some "Lead" } 2).status = 200
    ∧ (patchEmployeeHandler csA "e1" { jobTitle := some "Lead" } 2).store.employees
        ≠ csA.employees
    ∧ (patchEmployeeHandler csA "e1" { jobTitle := some "Lead" } 2).store.auditLogs.length
        = csA.auditLogs.length := by
  refine ⟨?_, ?_, ?_⟩ <;> decide

/-- C4 (amended): user create, update and delete, and department,
employee, template and workflow creates, each append exactly one AuditLog
row recording the action, the entity type, the entity id and a free-text
description; employee update and delete append none. -/
theorem c4_audit_rows_amended (s : Store) (now : Nat) :
    (∀ (b : UserBody) (d : InsertUser), parseInsertUser b = Except.ok d →
        ∃ log : AuditLog,
          (postUserHandler s b now).store.auditLogs = s.auditLogs ++ [log]
          ∧ log.action = "create" ∧ log.entityType = "user"
          ∧ log.entityId = some (freshId s.nextId)
          ∧ log.description = some ("Created user " ++ d.email))
    ∧ (∀ (i : String) (p : UserPatch) (u : User),
        s.users.find? (fun x => decide (x.id = i)) = some u →
        ∃ log : AuditLog,
          (patchUserHandler s i p now).store.auditLogs = s.auditLogs ++ [log]
          ∧ log.action = "update" ∧ log.entityType = "user"
          ∧ log.entityId = some u.id ∧ log.description.isSome = true)
    ∧ (∀ i : String,
        ∃ log : AuditLog,
          (deleteUserHandler s i now).store.auditLogs = s.auditLogs ++ [log]
          ∧ log.action = "delete" ∧ log.entityType = "user"
          ∧ log.entityId = some i ∧ log.description = some "Deleted user")
    ∧ (∀ (b : DepartmentBody) (d : InsertDepartment),
        parseInsertDepartment b = Except.ok d →
        ∃ log : AuditLog,
          (postDepartmentHandler s b now).store.auditLogs = s.auditLogs ++ [log]
          ∧ log.action = "create" ∧ log.entityType = "department"
          ∧ log.entityId = some (freshId s.nextId)
          ∧ log.description = some ("Created department " ++ d.name))
    ∧ (∀ (b : EmployeeBody) (d : InsertEmployee),
        parseInsertEmployee b = Except.ok d →
        ∃ log : AuditLog,
          (postEmployeeHandler s b now).store.auditLogs = s.auditLogs ++ [log]
          ∧ log.action = "create" ∧ log.entityType = "employee"
          ∧ log.entityId = some (freshId s.nextId)
          ∧ log.description
              = some ("Created employee " ++ d.firstName ++ " " ++ d.lastName))
    ∧ (∀ (b : TemplateBody) (steps : Option (List InsertTemplateStep))
          (d : InsertWorkflowTemplate),
        parseInsertWorkflowTemplate b = Except.ok d →
        ∃ log : AuditLog,
          (postTemplateHandler s b steps now).store.auditLogs
            = s.auditLogs ++ [log]
          ∧ log.action = "create" ∧ log.entityType = "template"
          ∧ log.entityId = some (freshId s.nextId)
          ∧ log.description = some ("Created template " ++ d.name))
    ∧ (∀ (b : WorkflowBody) (d : InsertWorkflow),
        parseInsertWorkflow b = Except.ok d →
        ∃ log : AuditLog,
          (postWorkflowHandler s b now).store.auditLogs = s.auditLogs ++ [log]
          ∧ log.action = "create" ∧ log.entityType = "workflow"
          ∧ log.entityId = some (freshId s.nextId)
          ∧ log.description = some ("Created workflow " ++ d.name))
    ∧ (∀ (i : String) (p : EmployeePatch),
        (patchEmployeeHandler s i p now).store.auditLogs = s.auditLogs)
    ∧ (∀ i : String,
        (deleteEmployeeHandler s i).store.auditLogs = s.auditLogs) := by
  refine ⟨?_, ?_, ?_, ?_, ?_, ?_, ?_, ?_, ?_⟩
  · intro b d h
    simp only [postUserHandler, h]
    exact ⟨_, rfl, rfl, rfl, rfl, rfl⟩
  · intro i p u h
    simp only [patchUserHandler, updateUser, h]
    exact ⟨_, rfl, rfl, rfl, rfl, rfl⟩
  · intro i
    exact ⟨_, rfl, rfl, rfl, rfl, rfl⟩
  · intro b d h
    simp only [postDepartmentHandler, h]
    exact ⟨_, rfl, rfl, rfl, rfl, rfl⟩
  · intro b d h
    simp only [postEmployeeHandler, h]
    exact ⟨_, rfl, rfl, rfl, rfl, rfl⟩
  · intro b steps d h
    cases steps with
    | none =>
        simp only [postTemplateHandler, h]
        exact ⟨_, rfl, rfl, rfl, rfl, rfl⟩
    | some l =>
        simp only [postTemplateHandler, h]
        obtain ⟨log, hl, ha, hb, hc, hd⟩ :=
          createAuditLog_spec
            (insertTemplateSteps (createWorkflowTemplate s d now).1
              (createWorkflowTemplate s d now).2.id l now)
            none "create" "template"
            (some (createWorkflowTemplate s d now).2.id)
            (some ("Created template "
              ++ (createWorkflowTemplate s d now).2.name)) now
        refine ⟨log, hl.trans ?_, ha, hb, hc, hd⟩
        rw [insertTemplateSteps_auditLogs]
        rfl
  · intro b d h
    simp only [postWorkflowHandler, h]
    obtain ⟨log, hl, ha, hb, hc, hd⟩ :=
      createAuditLog_spec
        (if d.templateId ≠ "" then
          cloneSteps (createWorkflow s d now).1 (createWorkflow s d now).2.id
            (getTemplateSteps (createWorkflow s d now).1 d.templateId) now
         else (createWorkflow s d now).1)
        none "create" "workflow" (some (createWorkflow s d now).2.id)
        (some ("Created workflow " ++ (createWorkflow s d now).2.name)) now
    refine ⟨log, hl.trans ?_, ha, hb, hc, hd⟩
    by_cases htid : d.templateId ≠ ""
    · rw [if_pos htid, cloneSteps_auditLogs]
      rfl
    · rw [if_neg htid]
      rfl
  · intro i p
    unfold patchEmployeeHandler updateEmployee
    cases hf : s.employees.find? (fun x => decide (x.id = i)) with
    | none => simp only [hf]
    | some e => simp only [hf]
  · intro i
    rfl

/-- POST body for the C4 witness: a complete user. -/
def ub4 : UserBody :=
  { email := some "x@y.z", username := some "x", password := some "pw",
    firstName := some "X", lastName := some "Y" }

/-- Parse result of `ub4`. -/
def d4 : InsertUser :=
  { email := "x@y.z", username := "x", password := "pw", firstName := "X",
    lastName := "Y", role := none, departmentId := none, avatarUrl := none,
    isActive := none }

/-- Witness for the amended C4 on `csA`. -/
theorem c4_audit_rows_amended_witness :
    (∃ log : AuditLog,
      (postUserHandler csA ub4 2).store.auditLogs = csA.auditLogs ++ [log]
      ∧ log.action = "create" ∧ log.entityType = "user"
      ∧ log.entityId = some (freshId csA.nextId)
      ∧ log.description = some ("Created user " ++ d4.email))
    ∧ (patchEmployeeHandler csA "e1"
        { jobTitle := some "Lead" } 2).store.auditLogs = csA.auditLogs :=
  ⟨(c4_audit_rows_amended csA 2).1 ub4 d4 rfl,
   (c4_audit_rows_amended csA 2).2.2.2.2.2.2.2.1 "e1" { jobTitle := some "Lead" }⟩

end HubFlow
